import Mathlib

/-!
# Verification of the aladin-mcp API-client request pipeline

A shallow embedding, in Lean 4, of the request pipeline of the aladin-mcp
repository: the validators (`src/utils/validators.ts`), the rate limiter
(`src/utils/rate-limiter.ts`), the error handler (`src/utils/error-handler.ts`),
the constants (`src/constants/api.ts`) and the API client (`src/client.ts`,
`AladinApiClient`).  JavaScript numbers are modelled as exact rationals plus a
distinguished `NaN`; JavaScript `Date` values carry their epoch-milliseconds
together with the local day-of-month (the only two observations the code
makes); the `Map`s are modelled as insertion-ordered association lists; the
HTTP transport is an oracle indexed by the number of requests issued so far;
and each `async` method is a pure function from its inputs and the mutable
client state to a result (`Except`) and the new state.  Logging calls, the
winston logger, the `RequestMetrics` bookkeeping of the rate limiter and the
global (cross-key) usage statistics are omitted: they receive writes but are
never read back by any of the functions modelled here.  Wall-clock time is
sampled once per call: every `Date.now()` inside a single method invocation
evaluates to the same instant (the intervening `setTimeout` back-off sleeps
only delay execution and are not otherwise observable in the modelled state).
-/

namespace AladinMcp

/-- A JavaScript number: an exact value or `NaN`.  (The source manipulates
integers, millisecond timestamps and the occasional `parseFloat` result; exact
rationals are a faithful carrier for all of them.) -/
inductive JsNum where
  | val (q : ℚ)
  | nan
  deriving DecidableEq, Repr

/-- Truthiness of a JavaScript number: `0` and `NaN` are falsy. -/
def JsNum.truthy : JsNum → Bool
  | .val q => q ≠ 0
  | .nan => false

/-- Numeric value of a list of decimal digit characters. -/
def digitsVal (ds : List Char) : ℕ :=
  ds.foldl (fun acc c => 10 * acc + (c.toNat - '0'.toNat)) 0

/-- `parseInt(s)` (radix 10): optional sign followed by leading decimal
digits; `NaN` when no digit is found. -/
def parseInt (s : String) : JsNum :=
  let core : List Char → JsNum := fun cs =>
    match cs.takeWhile Char.isDigit with
    | [] => .nan
    | ds => .val (digitsVal ds)
  match s.toList with
  | '-' :: rest =>
      match rest.takeWhile Char.isDigit with
      | [] => .nan
      | ds => .val (-(digitsVal ds : ℚ))
  | '+' :: rest => core rest
  | cs => core cs

/-- `parseFloat(s)`: optional sign, integer part, optional fractional part;
`NaN` when no digit is found at all. -/
def parseFloat (s : String) : JsNum :=
  let core : List Char → JsNum := fun cs =>
    let intPart := cs.takeWhile Char.isDigit
    let rest := cs.drop intPart.length
    let fracPart : List Char :=
      match rest with
      | '.' :: tl => tl.takeWhile Char.isDigit
      | _ => []
    if intPart = [] ∧ fracPart = [] then .nan
    else .val ((digitsVal intPart : ℚ) + (digitsVal fracPart : ℚ) / (10 : ℚ) ^ fracPart.length)
  match s.toList with
  | '-' :: rest =>
      match core rest with
      | .nan => .nan
      | .val q => .val (-q)
  | '+' :: rest => core rest
  | cs => core cs

/-- A loosely-typed JavaScript value as found in an upstream response item:
string, number, boolean or `undefined` (absent field). -/
inductive JsVal where
  | str (s : String)
  | num (n : JsNum)
  | boolean (b : Bool)
  | undef
  deriving DecidableEq, Repr

/-- JavaScript truthiness. -/
def JsVal.truthy : JsVal → Bool
  | .str s => s ≠ ""
  | .num n => n.truthy
  | .boolean b => b
  | .undef => false

/-- The JavaScript `a || b` operator. -/
def jsOr (a b : JsVal) : JsVal := if a.truthy then a else b

/-! ## Constants (`src/constants/api.ts`) -/

def DAILY_API_LIMIT : ℕ := 5000

namespace HTTP_CONFIG

def TIMEOUT : ℤ := 10000
def MAX_RETRIES : ℕ := 3
def RETRY_DELAY : ℚ := 1000
def MAX_RETRY_DELAY : ℚ := 8000
def RETRY_MULTIPLIER : ℚ := 2

end HTTP_CONFIG

namespace CACHE_CONFIG

def SEARCH_TTL : ℤ := 5 * 60 * 1000
def LOOKUP_TTL : ℤ := 30 * 60 * 1000
def LIST_TTL : ℤ := 10 * 60 * 1000
def MAX_CACHE_SIZE : ℕ := 1000

end CACHE_CONFIG

namespace VALIDATION_RULES

def MIN_START : ℤ := 1
def MAX_START : ℤ := 1000
def MIN_MAX_RESULTS : ℤ := 1
def MAX_MAX_RESULTS : ℤ := 50
def MIN_CATEGORY_ID : ℤ := 0
def MAX_CATEGORY_ID : ℤ := 99999
def MIN_QUERY_LENGTH : ℕ := 1
def MAX_QUERY_LENGTH : ℕ := 200
def MIN_MONTH : ℤ := 1
def MAX_MONTH : ℤ := 12
def MIN_WEEK : ℤ := 1
def MAX_WEEK : ℤ := 5

end VALIDATION_RULES

/-- `VALIDATION_RULES.TTB_KEY_PATTERN`: `^ttb[a-zA-Z0-9.]+$`. -/
def ttbKeyPatternTest (s : String) : Bool :=
  match s.toList with
  | 't' :: 't' :: 'b' :: rest => rest ≠ [] ∧ rest.all fun c => c.isAlphanum ∨ c = '.'
  | _ => false

/-- `VALIDATION_RULES.ISBN_10_PATTERN`: `^\d{9}[\dX]$`. -/
def isbn10PatternTest (s : String) : Bool :=
  let cs := s.toList
  cs.length = 10 ∧ (cs.take 9).all Char.isDigit ∧
    ((cs.getD 9 ' ').isDigit ∨ cs.getD 9 ' ' = 'X')

/-- `VALIDATION_RULES.ISBN_13_PATTERN`: `^\d{13}$`. -/
def isbn13PatternTest (s : String) : Bool :=
  let cs := s.toList
  cs.length = 13 ∧ cs.all Char.isDigit

/-! ## Standard errors and the error handler (`src/utils/error-handler.ts`)

`StandardError` carries an `ErrorCode` and a message (the `originalError` and
`timestamp` fields, which no modelled code path reads, are omitted).  Error
codes are the numeric values of the `ErrorCode` enum: 100 `INVALID_TTB_KEY`,
200 `MISSING_REQUIRED_PARAM`, 300 `INVALID_PARAM_VALUE`, 900 `SYSTEM_ERROR`,
901 `DAILY_LIMIT_EXCEEDED`. -/

structure StandardError where
  code : ℕ
  message : String
  deriving DecidableEq, Repr

/-- `createStandardError` (both in the client and the error handler). -/
def createStandardError (code : ℕ) (message : String) : StandardError :=
  ⟨code, message⟩

namespace AladinErrorHandler

/-- `handleValidationError`: joins the accumulated validation messages and
wraps them with code 300 (`INVALID_PARAM_VALUE`). -/
def handleValidationError (errors : List String) : StandardError :=
  createStandardError 300 (String.intercalate ", " errors)

/-- `handleGenericError` with an optional context tag: code 900
(`SYSTEM_ERROR`), message `context: originalMessage`. -/
def handleGenericError (message : String) (context : Option String) : StandardError :=
  createStandardError 900 (match context with
    | some c => c ++ ": " ++ message
    | none => message)

/-- `handleApiLimitExceeded`. -/
def handleApiLimitExceeded (dailyCount dailyLimit : ℕ) : StandardError :=
  createStandardError 901
    (s!"일일 API 호출 한도({dailyLimit}회)를 초과했습니다. 현재 사용량: {dailyCount}회")

/-- `handleInvalidTtbKey`. -/
def handleInvalidTtbKey : StandardError :=
  createStandardError 100 "TTB 키가 유효하지 않습니다."

/-- `handleAladinApiError`: well-known upstream error codes map through
`ALADIN_ERROR_DETAILS`; unknown codes degrade to `SYSTEM_ERROR` with the
upstream-provided message. -/
def handleAladinApiError (errorCode : ℕ) (errorMessage : String) : StandardError :=
  if errorCode = 100 then createStandardError 100 "잘못된 TTB 키입니다. API 키를 확인해 주세요."
  else if errorCode = 200 then createStandardError 200 "필수 파라미터가 누락되었습니다."
  else if errorCode = 300 then createStandardError 300 "잘못된 파라미터 값입니다."
  else if errorCode = 900 then
    createStandardError 900 "시스템 오류가 발생했습니다. 잠시 후 다시 시도해 주세요."
  else if errorCode = 901 then
    createStandardError 901 "일일 호출 한도(5,000회)를 초과했습니다. 내일 다시 시도해 주세요."
  else createStandardError 900
    (if errorMessage ≠ "" then errorMessage else "알 수 없는 API 오류가 발생했습니다.")

/-- `handleNetworkError`: transport-level error codes map through
`NETWORK_ERROR_MAPPING`, everything else to a generic network failure; the
result always carries code 900 (`SYSTEM_ERROR`). -/
def handleNetworkError (code : String) : StandardError :=
  if code = "ECONNREFUSED" then createStandardError 900 "서버에 연결할 수 없습니다."
  else if code = "ENOTFOUND" then createStandardError 900 "서버를 찾을 수 없습니다."
  else if code = "ECONNABORTED" then createStandardError 900 "요청 시간이 초과되었습니다."
  else if code = "ETIMEDOUT" then createStandardError 900 "요청 시간이 초과되었습니다."
  else createStandardError 900 "네트워크 연결에 실패했습니다."

/-- `handleHttpStatusError`: maps an HTTP status through
`HTTP_STATUS_ERROR_MAPPING`, choosing the `ErrorCode` from the category. -/
def handleHttpStatusError (status : ℕ) : StandardError :=
  if status = 400 then createStandardError 300 "잘못된 요청입니다."
  else if status = 401 then createStandardError 100 "인증에 실패했습니다."
  else if status = 403 then createStandardError 100 "접근이 거부되었습니다."
  else if status = 404 then createStandardError 900 "요청한 리소스를 찾을 수 없습니다."
  else if status = 429 then createStandardError 901 "API 호출 빈도 제한을 초과했습니다."
  else if status = 500 then createStandardError 900 "서버 내부 오류가 발생했습니다."
  else if status = 502 then createStandardError 900 "게이트웨이 오류가 발생했습니다."
  else if status = 503 then createStandardError 900 "서비스를 사용할 수 없습니다."
  else if status = 504 then createStandardError 900 "게이트웨이 시간 초과가 발생했습니다."
  else createStandardError 900 s!"HTTP {status} 오류가 발생했습니다."

/-- `AladinErrorHandler.isRetryableError`: retryability from
`ALADIN_ERROR_DETAILS` (only code 900 is retryable there); unknown codes fall
back to `code === ErrorCode.SYSTEM_ERROR`. -/
def isRetryableError (e : StandardError) : Bool :=
  if e.code = 100 then false
  else if e.code = 200 then false
  else if e.code = 300 then false
  else if e.code = 900 then true
  else if e.code = 901 then false
  else e.code = 900

end AladinErrorHandler

/-! ## Validators (`src/utils/validators.ts`) -/

/-- `ValidationResult` (`src/types.ts`). -/
structure ValidationResult where
  isValid : Bool
  errors : List String
  deriving DecidableEq, Repr

/-- ISBN-10 check digit expected by `validateIsbn10`: digit `i` (0-based) is
weighted `10 - i`; remainder 0 gives `'0'`, remainder 1 gives `'X'`, otherwise
the digit `11 - remainder`. -/
def isbn10ExpectedCheckDigit (cs : List Char) : Char :=
  let digits := (cs.take 9).map fun c => c.toNat - '0'.toNat
  let sum := (List.range 9).foldl (fun acc i => acc + digits.getD i 0 * (10 - i)) 0
  let remainder := sum % 11
  if remainder = 0 then '0'
  else if remainder = 1 then 'X'
  else Char.ofNat ('0'.toNat + (11 - remainder))

/-- `validateIsbn10` (`src/utils/validators.ts`): pattern `^\d{9}[\dX]$` and
the mod-11 weighted checksum. -/
def validateIsbn10 (isbn : String) : ValidationResult :=
  if isbn = "" then ⟨false, ["ISBN-10은 문자열이어야 합니다."]⟩
  else if ¬isbn10PatternTest isbn then
    ⟨false, ["ISBN-10은 10자리 숫자여야 하며, 마지막 자리는 숫자 또는 X여야 합니다."]⟩
  else
    let cs := isbn.toList
    if cs.getD 9 ' ' ≠ isbn10ExpectedCheckDigit cs then
      ⟨false, ["유효하지 않은 ISBN-10 체크섬입니다."]⟩
    else ⟨true, []⟩

/-- ISBN-13 check digit expected by `validateIsbn13`: digits 0..11 weighted
alternately 1 and 3, check digit `(10 - sum % 10) % 10`. -/
def isbn13ExpectedCheckDigit (cs : List Char) : ℕ :=
  let digits := cs.map fun c => c.toNat - '0'.toNat
  let sum := (List.range 12).foldl
    (fun acc i => acc + digits.getD i 0 * (if i % 2 = 0 then 1 else 3)) 0
  (10 - sum % 10) % 10

/-- `validateIsbn13` (`src/utils/validators.ts`): pattern `^\d{13}$` and the
mod-10 weighted checksum. -/
def validateIsbn13 (isbn : String) : ValidationResult :=
  if isbn = "" then ⟨false, ["ISBN-13은 문자열이어야 합니다."]⟩
  else if ¬isbn13PatternTest isbn then
    ⟨false, ["ISBN-13은 13자리 숫자여야 합니다."]⟩
  else
    let cs := isbn.toList
    if (cs.getD 12 ' ').toNat - '0'.toNat ≠ isbn13ExpectedCheckDigit cs then
      ⟨false, ["유효하지 않은 ISBN-13 체크섬입니다."]⟩
    else ⟨true, []⟩

/-! Specification-side ISBN predicates, written after the words of the spec
("ISBN-10 regex `^\d{9}[\dX]$` plus mod-11 checksum; ISBN-13 regex `^\d{13}$`
plus mod-10 weighted checksum with weights alternating 1,3"), to be compared
with the source-derived validators above. -/

/-- Spec reading of ISBN-10 validity: the string matches `^\d{9}[\dX]$` and
its mod-11 weighted checksum (digit `i` weighted `10 - i`, check digit `'0'`
for remainder 0, `'X'` for remainder 1, otherwise `11 - remainder`) is
correct. -/
def specIsbn10Accepts (s : String) : Prop :=
  isbn10PatternTest s = true ∧
    s.toList.getD 9 ' ' = isbn10ExpectedCheckDigit s.toList

/-- Spec reading of ISBN-13 validity: the string matches `^\d{13}$` and its
mod-10 checksum with alternating weights 1,3 is correct. -/
def specIsbn13Accepts (s : String) : Prop :=
  isbn13PatternTest s = true ∧
    (s.toList.getD 12 ' ').toNat - '0'.toNat = isbn13ExpectedCheckDigit s.toList

/-! ## Cache keys (`AladinApiClient.createCacheKey`)

A request-parameter object is an insertion-ordered association list of field
names to primitive parameter values.  `createCacheKey` rebuilds the object
with its field names sorted and serialises it with `JSON.stringify`. -/

/-- A primitive request-parameter value: string, integer or array of strings
(the only shapes appearing in request parameters). -/
inductive PVal where
  | s (v : String)
  | n (v : ℤ)
  | arr (v : List String)
  deriving DecidableEq, Repr

/-- `JSON.stringify` of one parameter value (string escapes are irrelevant for
the keys actually built and are not modelled). -/
def PVal.stringify : PVal → String
  | .s v => "\"" ++ v ++ "\""
  | .n v => toString v
  | .arr v => "[" ++ String.intercalate "," (v.map fun x => "\"" ++ x ++ "\"") ++ "]"

/-- `JSON.stringify` of an object given as an ordered field list. -/
def jsonStringifyObj (fields : List (String × PVal)) : String :=
  "\x7b" ++
    String.intercalate "," (fields.map fun p => "\"" ++ p.1 ++ "\":" ++ p.2.stringify) ++
    "\x7d"

/-- `createCacheKey(prefix, params)`: `Object.keys(params).sort()` rebuilt into
an object in sorted field order, serialised, and prefixed with
`CACHE_CONFIG.KEY_PREFIX = "aladin_mcp"` and the endpoint tag. -/
def createCacheKey (tag : String) (params : List (String × PVal)) : String :=
  let sortedKeys := (params.map Prod.fst).insertionSort (· ≤ ·)
  let sortedParams := sortedKeys.filterMap fun k => (params.lookup k).map fun v => (k, v)
  "aladin_mcp" ++ ":" ++ tag ++ ":" ++ jsonStringifyObj sortedParams

/-! ## The response cache (`AladinApiClient.getFromCache` / `setCache`)

The client's `Map<string, CacheEntry<any>>` is an insertion-ordered
association list with unique keys; `Map.get`, `Map.set` (in-place update of an
existing key, append of a fresh one) and `Map.delete` are modelled on it. -/

/-- `Map.get`. -/
def mapGet {α : Type} (m : List (String × α)) (key : String) : Option α :=
  (m.find? fun p => p.1 = key).map Prod.snd

/-- `Map.delete`. -/
def mapDelete {α : Type} (m : List (String × α)) (key : String) : List (String × α) :=
  m.filter fun p => p.1 ≠ key

/-- `Map.set`: updates an existing key in place (keeping insertion order) or
appends a new one. -/
def mapSet {α : Type} (m : List (String × α)) (key : String) (v : α) :
    List (String × α) :=
  if m.any fun p => p.1 = key then
    m.map fun p => if p.1 = key then (key, v) else p
  else m ++ [(key, v)]

/-! ## Book items and normalization (`AladinApiClient.normalizeBookItem`)

An upstream `CompleteBookItem` arrives loosely typed: every scalar field may
be a string, a number, a boolean or absent.  `subInfo` is an optional nested
object, spread through unchanged; it is modelled as a generic field map. -/

/-- The optional nested `subInfo` object, as a generic field map (the
normalizer never looks inside it). -/
abbrev SubInfoVal : Type := List (String × JsVal)

/-- A loosely-typed upstream book item: the scalar fields touched by
`normalizeBookItem` plus the pass-through `subInfo`. -/
structure BookItem where
  itemId : JsVal
  title : JsVal
  author : JsVal
  publisher : JsVal
  pubDate : JsVal
  description : JsVal
  isbn : JsVal
  isbn13 : JsVal
  priceSales : JsVal
  priceStandard : JsVal
  cover : JsVal
  categoryId : JsVal
  categoryName : JsVal
  salesPoint : JsVal
  customerReviewRank : JsVal
  adult : JsVal
  fixedPrice : JsVal
  mileage : JsVal
  stockStatus : JsVal
  mallType : JsVal
  link : JsVal
  subInfo : Option SubInfoVal
  deriving DecidableEq, Repr

/-- The coercion `typeof x === 'string' ? parseInt(x) : (x || 0)` applied by
`normalizeBookItem` to each integer-typed field. -/
def coerceNumInt (v : JsVal) : JsVal :=
  match v with
  | .str s => .num (parseInt s)
  | v => jsOr v (.num (.val 0))

/-- The coercion `typeof x === 'string' ? parseFloat(x) : x || 0` applied to
`customerReviewRank`. -/
def coerceNumFloat (v : JsVal) : JsVal :=
  match v with
  | .str s => .num (parseFloat s)
  | v => jsOr v (.num (.val 0))

/-- The coercion `x || ''` applied to each string-typed field. -/
def coerceStr (v : JsVal) : JsVal := jsOr v (.str "")

/-- The coercion `Boolean(x)` applied to `adult` and `fixedPrice`. -/
def coerceBool (v : JsVal) : JsVal := .boolean v.truthy

/-- `AladinApiClient.normalizeBookItem`: spreads the item and overwrites each
required scalar field with its defaulted/coerced value; `subInfo` (and any
other unlisted field) rides along unchanged. -/
def normalizeBookItem (item : BookItem) : BookItem :=
  { item with
    itemId := coerceNumInt item.itemId
    title := coerceStr item.title
    author := coerceStr item.author
    publisher := coerceStr item.publisher
    pubDate := coerceStr item.pubDate
    description := coerceStr item.description
    isbn := coerceStr item.isbn
    isbn13 := coerceStr item.isbn13
    priceSales := coerceNumInt item.priceSales
    priceStandard := coerceNumInt item.priceStandard
    cover := coerceStr item.cover
    categoryId := coerceNumInt item.categoryId
    categoryName := coerceStr item.categoryName
    salesPoint := coerceNumInt item.salesPoint
    customerReviewRank := coerceNumFloat item.customerReviewRank
    adult := coerceBool item.adult
    fixedPrice := coerceBool item.fixedPrice
    mileage := coerceNumInt item.mileage
    stockStatus := coerceStr item.stockStatus
    mallType := coerceStr item.mallType
    link := coerceStr item.link }

/-- A loosely-typed value acceptable in a number-typed field as
`normalizeBookItem` handles it: a number, absent, or a string that `parseInt`
can parse (its `NaN` results are exactly the values `x || 0` later collapses
to 0). -/
def looseNumField : JsVal → Bool
  | .str s => parseInt s != .nan
  | .num _ => true
  | .boolean _ => false
  | .undef => true

/-- As `looseNumField`, but for the one field parsed with `parseFloat`. -/
def looseNumFieldF : JsVal → Bool
  | .str s => parseFloat s != .nan
  | .num _ => true
  | .boolean _ => false
  | .undef => true

/-- A loosely-typed value acceptable in a string-typed field: a string or
absent. -/
def looseStrField : JsVal → Bool
  | .str _ => true
  | .undef => true
  | _ => false

/-- The value is a number. -/
def isNumVal : JsVal → Prop := fun v => ∃ n, v = .num n

/-- The value is a string. -/
def isStrVal : JsVal → Prop := fun v => ∃ s, v = .str s

/-- The value is a boolean. -/
def isBoolVal : JsVal → Prop := fun v => ∃ b, v = .boolean b

/-! ## Responses and their normalization (`src/client.ts`) -/

/-- An `ItemSearch` response (`SearchResponse`); `item` is `Option`al because
the upstream may omit the array. -/
structure SearchResponse where
  version : String
  title : String
  link : String
  pubDate : String
  totalResults : ℤ
  startIndex : ℤ
  itemsPerPage : ℤ
  query : String
  item : Option (List BookItem)
  deriving DecidableEq, Repr

/-- An `ItemLookUp` / `ItemList` response (`LookupResponse` / `ListResponse`
share this shape). -/
structure LookupResponse where
  version : String
  title : String
  link : String
  pubDate : String
  item : Option (List BookItem)
  deriving DecidableEq, Repr

/-- `normalizeSearchResponse`: defaults a missing `item` array to `[]` and
normalizes each element. -/
def normalizeSearchResponse (r : SearchResponse) : SearchResponse :=
  { r with item := some ((r.item.getD []).map normalizeBookItem) }

/-- `normalizeLookupResponse` (also `normalizeListResponse`, which is
line-for-line identical). -/
def normalizeLookupResponse (r : LookupResponse) : LookupResponse :=
  { r with item := some ((r.item.getD []).map normalizeBookItem) }

/-- A value stored in the client's single response cache
(`CacheEntry<any>.data`): a normalized search response, the
`CompleteBookItem | null` result of a lookup, or a list response. -/
inductive CachedData where
  | search (r : SearchResponse)
  | book (b : Option BookItem)
  | list (r : LookupResponse)
  deriving DecidableEq, Repr

/-- Truthiness of a cached value, as tested by `if (cached)` after
`getFromCache`: a cached lookup result of `null` is falsy (and is therefore
never served from the cache); object values are truthy. -/
def CachedData.truthy : CachedData → Bool
  | .book none => false
  | _ => true

/-- `CacheEntry` (`src/types.ts`): data, storage timestamp, TTL. -/
structure CacheEntry where
  data : CachedData
  timestamp : ℤ
  ttl : ℤ
  deriving DecidableEq, Repr

/-- `AladinApiClient.getFromCache`: absent key gives `null`; an entry with
`Date.now() - timestamp > ttl` is deleted and reported absent; otherwise the
stored data is returned.  Returns the result together with the (possibly
shrunk) cache. -/
def getFromCache (now : ℤ) (key : String) (cache : List (String × CacheEntry)) :
    Option CachedData × List (String × CacheEntry) :=
  match mapGet cache key with
  | none => (none, cache)
  | some entry =>
    if now - entry.timestamp > entry.ttl then (none, mapDelete cache key)
    else (some entry.data, cache)

/-- `AladinApiClient.setCache`: when the map is at
`CACHE_CONFIG.MAX_CACHE_SIZE`, the oldest-inserted entry is deleted first;
then the new entry is stored under `key`. -/
def setCache (now : ℤ) (key : String) (data : CachedData) (ttl : ℤ)
    (cache : List (String × CacheEntry)) : List (String × CacheEntry) :=
  let cache :=
    if cache.length ≥ CACHE_CONFIG.MAX_CACHE_SIZE then
      match cache with
      | [] => cache
      | (oldestKey, _) :: _ => mapDelete cache oldestKey
    else cache
  mapSet cache key ⟨data, now, ttl⟩

/-! ## The rate limiter (`src/utils/rate-limiter.ts`, `AladinRateLimiter`)

All per-key maps (`ttbKeyUsages`, `rateLimitStates`) key their state by the
TTB key and never let the entries interact, so the limiter is modelled as the
state of the single key under consideration.  A JavaScript `Date` is modelled
by the two observations the limiter makes of it: `getTime()` (epoch
milliseconds) and `getDate()` (the local-time day of month). -/

/-- A JavaScript `Date`: epoch milliseconds together with the local
day-of-month returned by `getDate()`. -/
structure JsDate where
  time : ℤ
  dayOfMonth : ℕ
  deriving DecidableEq, Repr

namespace RATE_LIMIT_CONFIG

def DEFAULT_REQUEST_INTERVAL : ℚ := 200
def BURST_LIMIT : ℕ := 10
def BURST_WINDOW : ℤ := 1000
def BACKOFF_MULTIPLIER : ℚ := 3 / 2
def MAX_BACKOFF_DELAY : ℚ := 5000
def TTB_VALIDATION_INTERVAL : ℤ := 24 * 60 * 60 * 1000

end RATE_LIMIT_CONFIG

/-- `TtbKeyUsage`: per-key usage statistics. -/
structure TtbKeyUsage where
  ttbKey : String
  dailyCount : ℕ
  dailyLimit : ℕ
  lastReset : JsDate
  lastCall : JsDate
  lastValidation : ℤ
  isValid : Bool
  requestHistory : List ℤ
  totalRequests : ℕ
  successfulRequests : ℕ
  failedRequests : ℕ
  deriving DecidableEq, Repr

/-- The fresh `TtbKeyUsage` built by `getTtbKeyUsage` for an unseen key
(`lastValidation = new Date(0)` forces an immediate TTB-key validation). -/
def freshTtbKeyUsage (ttbKey : String) (now : JsDate) : TtbKeyUsage where
  ttbKey := ttbKey
  dailyCount := 0
  dailyLimit := DAILY_API_LIMIT
  lastReset := now
  lastCall := now
  lastValidation := 0
  isValid := true
  requestHistory := []
  totalRequests := 0
  successfulRequests := 0
  failedRequests := 0

/-- `RateLimitState`: per-key throttling state. -/
structure RateLimitState where
  isBlocked : Bool
  nextAllowedTime : ℚ
  currentDelay : ℚ
  burstCount : ℕ
  lastBurstReset : ℤ
  deriving DecidableEq, Repr

/-- The fresh `RateLimitState` built by `getRateLimitState` for an unseen
key. -/
def freshRateLimitState (now : ℤ) : RateLimitState where
  isBlocked := false
  nextAllowedTime := 0
  currentDelay := RATE_LIMIT_CONFIG.DEFAULT_REQUEST_INTERVAL
  burstCount := 0
  lastBurstReset := now

namespace AladinRateLimiter

/-- `resetDailyUsage`: zeroes the daily counter and stamps the reset time. -/
def resetDailyUsage (now : JsDate) (usage : TtbKeyUsage) : TtbKeyUsage :=
  { usage with dailyCount := 0, lastReset := now }

/-- `checkDailyLimit`: resets lazily when `now.getDate() !==
usage.lastReset.getDate()`, then raises `handleApiLimitExceeded` when the
(possibly reset) counter has reached the limit.  Returns the error, if any,
together with the updated usage. -/
def checkDailyLimit (now : JsDate) (usage : TtbKeyUsage) :
    Option StandardError × TtbKeyUsage :=
  let usage :=
    if now.dayOfMonth ≠ usage.lastReset.dayOfMonth then resetDailyUsage now usage
    else usage
  if usage.dailyCount ≥ usage.dailyLimit then
    (some (AladinErrorHandler.handleApiLimitExceeded usage.dailyCount usage.dailyLimit), usage)
  else (none, usage)

/-- `validateTtbKey` (the limiter's private method): re-validates the key
format when the 24-hour validation interval has passed or the key is flagged
invalid, updating `isValid` / `lastValidation`; raises `handleInvalidTtbKey`
for a key that fails `^ttb[a-zA-Z0-9.]+$` or stays flagged invalid. -/
def validateTtbKeyUsage (now : JsDate) (usage : TtbKeyUsage) :
    Option StandardError × TtbKeyUsage :=
  let step :
      Option StandardError × TtbKeyUsage :=
    if now.time - usage.lastValidation > RATE_LIMIT_CONFIG.TTB_VALIDATION_INTERVAL
        ∨ ¬usage.isValid then
      if ¬ttbKeyPatternTest usage.ttbKey then
        (some AladinErrorHandler.handleInvalidTtbKey, { usage with isValid := false })
      else (none, { usage with isValid := true, lastValidation := now.time })
    else (none, usage)
  match step with
  | (some e, usage) => (some e, usage)
  | (none, usage) =>
    if ¬usage.isValid then (some AladinErrorHandler.handleInvalidTtbKey, usage)
    else (none, usage)

/-- `checkRequestFrequency`: rejects while a previously applied block is
active, lifts an expired block, and applies an exponential back-off block
(awaited in the source; time does not advance in the model) when more than
the allowed 5 calls fell in the trailing 1-second window. -/
def checkRequestFrequency (now : JsDate) (usage : TtbKeyUsage)
    (st : RateLimitState) : Option StandardError × RateLimitState :=
  if st.isBlocked ∧ (now.time : ℚ) < st.nextAllowedTime then
    let waitTime := st.nextAllowedTime - (now.time : ℚ)
    (some (AladinErrorHandler.handleGenericError
        s!"요청 빈도 제한으로 인해 {waitTime}ms 후 다시 시도해 주세요." (some "RATE_LIMIT_BLOCKED")), st)
  else
    let st :=
      if st.isBlocked ∧ (now.time : ℚ) ≥ st.nextAllowedTime then
        { st with isBlocked := false,
                  currentDelay := RATE_LIMIT_CONFIG.DEFAULT_REQUEST_INTERVAL }
      else st
    let recentRequests := usage.requestHistory.filter fun t => now.time - t ≤ 1000
    if recentRequests.length ≥ 5 then
      let newDelay :=
        min (st.currentDelay * RATE_LIMIT_CONFIG.BACKOFF_MULTIPLIER)
          RATE_LIMIT_CONFIG.MAX_BACKOFF_DELAY
      (none, { st with currentDelay := newDelay, isBlocked := true,
                       nextAllowedTime := (now.time : ℚ) + newDelay })
    else (none, st)

/-- `checkBurstLimit`: resets the burst window when more than
`BURST_WINDOW` has passed since the last reset, raises a retryable
burst-limit error (`handleGenericError` with context `BURST_LIMIT_EXCEEDED`)
when the burst counter has reached `BURST_LIMIT`, and otherwise admits the
call, counting it. -/
def checkBurstLimit (now : ℤ) (st : RateLimitState) :
    Option StandardError × RateLimitState :=
  let st :=
    if now - st.lastBurstReset > RATE_LIMIT_CONFIG.BURST_WINDOW then
      { st with burstCount := 0, lastBurstReset := now }
    else st
  if st.burstCount ≥ RATE_LIMIT_CONFIG.BURST_LIMIT then
    let waitTime := RATE_LIMIT_CONFIG.BURST_WINDOW - (now - st.lastBurstReset)
    (some (AladinErrorHandler.handleGenericError
        s!"버스트 제한으로 인해 {waitTime}ms 후 다시 시도해 주세요." (some "BURST_LIMIT_EXCEEDED")), st)
  else (none, { st with burstCount := st.burstCount + 1 })

/-- `checkRateLimit`: the four pre-call checks in sequence — daily limit, TTB
key validity, request frequency, burst limit — stopping at the first raised
error but keeping every state update already applied. -/
def checkRateLimit (now : JsDate) (usage : TtbKeyUsage) (st : RateLimitState) :
    Option StandardError × TtbKeyUsage × RateLimitState :=
  match checkDailyLimit now usage with
  | (some e, usage) => (some e, usage, st)
  | (none, usage) =>
    match validateTtbKeyUsage now usage with
    | (some e, usage) => (some e, usage, st)
    | (none, usage) =>
      match checkRequestFrequency now usage st with
      | (some e, st) => (some e, usage, st)
      | (none, st) =>
        match checkBurstLimit now.time st with
        | (some e, st) => (some e, usage, st)
        | (none, st) => (none, usage, st)

/-- `n` successive `checkBurstLimit` calls at the same instant, stopping at
the first raised error (each admitted call is one call let through within the
burst window). -/
def iterBurst (now : ℤ) : ℕ → RateLimitState → Option StandardError × RateLimitState
  | 0, st => (none, st)
  | n + 1, st =>
    match checkBurstLimit now st with
    | (some e, st) => (some e, st)
    | (none, st) => iterBurst now n st

/-- `recordApiCall`: increments the daily counter and the total/outcome
counters, stamps `lastCall`, and appends the call instant to the request
history, which is then pruned to the trailing minute.  (The `RequestMetrics`
update, the global usage statistics and the logging calls are write-only and
omitted.) -/
def recordApiCall (now : JsDate) (success : Bool) (usage : TtbKeyUsage) :
    TtbKeyUsage :=
  let usage :=
    { usage with
        dailyCount := usage.dailyCount + 1
        lastCall := now
        totalRequests := usage.totalRequests + 1
        successfulRequests := usage.successfulRequests + (if success then 1 else 0)
        failedRequests := usage.failedRequests + (if success then 0 else 1) }
  { usage with
      requestHistory :=
        (usage.requestHistory ++ [now.time]).filter fun t => now.time - t ≤ 60000 }

end AladinRateLimiter

/-! ## The API client (`src/client.ts`, `AladinApiClient`)

The client instance state is its response cache, the per-key limiter state
behind `checkApiRateLimit` / `recordApiUsage` (the client always passes its
own `ttbKey`), the circuit-breaker counters and — for the embedding — the
number of HTTP requests issued so far.  The HTTP transport is an oracle
mapping that request index to an axios outcome. -/

/-- Circuit-breaker state (`circuitBreakerFailures`,
`circuitBreakerLastFailure`). -/
structure BreakerState where
  circuitBreakerFailures : ℕ
  circuitBreakerLastFailure : Option ℤ
  deriving DecidableEq, Repr

def CIRCUIT_BREAKER_THRESHOLD : ℕ := 5
def CIRCUIT_BREAKER_TIMEOUT : ℤ := 60000

/-- The breaker state a freshly constructed client starts from. -/
def freshBreakerState : BreakerState := ⟨0, none⟩

namespace AladinApiClient

/-- `handleCircuitBreaker`: invoked by the response interceptor on every
failed HTTP response — one more consecutive failure, stamped now. -/
def handleCircuitBreaker (now : ℤ) (s : BreakerState) : BreakerState :=
  ⟨s.circuitBreakerFailures + 1, some now⟩

/-- The response interceptor's success handler: resets the consecutive
failure count to 0 (leaving the last-failure stamp untouched). -/
def interceptorSuccessReset (s : BreakerState) : BreakerState :=
  { s with circuitBreakerFailures := 0 }

/-- `checkCircuitBreaker`: when the failure count has reached the threshold
and the cool-down has not yet elapsed since the last failure, raises the
"서비스가 일시적으로 차단되었습니다" `SYSTEM_ERROR`; when the cool-down has elapsed,
resets the breaker and passes. -/
def checkCircuitBreaker (now : ℤ) (s : BreakerState) :
    Option StandardError × BreakerState :=
  if s.circuitBreakerFailures ≥ CIRCUIT_BREAKER_THRESHOLD then
    match s.circuitBreakerLastFailure with
    | some t =>
      if now - t < CIRCUIT_BREAKER_TIMEOUT then
        (some (createStandardError 900
          "서비스가 일시적으로 차단되었습니다. 잠시 후 다시 시도해 주세요."), s)
      else (none, ⟨0, none⟩)
    | none => (none, s)
  else (none, s)

end AladinApiClient

/-- The shape of an axios rejection as the client inspects it: an optional
HTTP status, an optional structured upstream error body
(`response.data.errorCode` / `errorMessage`), an optional transport error
code, and the error message. -/
structure AxiosErr where
  status : Option ℕ
  errorCode : Option ℕ
  errorMessage : String
  code : Option String
  message : String
  deriving DecidableEq, Repr

/-- A thrown value as seen inside the client: either a genuine axios error
or an already-standardised `StandardError` (for which `axios.isAxiosError`
is false). -/
inductive Thrown where
  | ax (e : AxiosErr)
  | std (e : StandardError)
  deriving DecidableEq, Repr

namespace AladinApiClient

/-- `handleApiError`: an axios error is classified by structured upstream
body, then transport code, then HTTP status; everything else — including a
re-thrown `StandardError`, which fails `axios.isAxiosError` — degrades to
`handleGenericError(error, 'API_CALL')`. -/
def handleApiError : Thrown → StandardError
  | .ax e =>
    match e.errorCode with
    | some ec => AladinErrorHandler.handleAladinApiError ec e.errorMessage
    | none =>
      match e.code with
      | some c => AladinErrorHandler.handleNetworkError c
      | none =>
        match e.status with
        | some st => AladinErrorHandler.handleHttpStatusError st
        | none => AladinErrorHandler.handleGenericError e.message (some "API_CALL")
  | .std e => AladinErrorHandler.handleGenericError e.message (some "API_CALL")

/-- `AladinApiClient.isRetryableError`: only axios errors can be retryable —
with no status (network failure), a 5xx status, 429, or one of the retryable
transport codes. -/
def isRetryableError : Thrown → Bool
  | .ax e =>
    e.status.isNone ||
      (match e.status with
       | some st => decide (st ≥ 500) || decide (st = 429)
       | none => false) ||
      decide (e.code = some "ECONNREFUSED") || decide (e.code = some "ENOTFOUND") ||
      decide (e.code = some "ECONNABORTED")
  | .std _ => false

/-- `retryRequest`: runs the request function once; on a retryable failure
with retries left, recurses with one fewer retry (the exponential back-off
sleep advances no modelled state); otherwise propagates the failure.
Generic in the state `σ` threaded through the request function. -/
def retryRequest {σ α : Type} (fn : σ → Except Thrown α × σ) :
    ℕ → σ → Except Thrown α × σ
  | 0, s =>
    match fn s with
    | (.ok r, s) => (.ok r, s)
    | (.error e, s) => (.error e, s)
  | n + 1, s =>
    match fn s with
    | (.ok r, s) => (.ok r, s)
    | (.error e, s) =>
      if isRetryableError e then retryRequest fn n s else (.error e, s)

end AladinApiClient

/-- The mutable state of one `AladinApiClient` (plus, for the embedding, the
count of HTTP requests issued, which indexes the transport oracle). -/
structure ClientState where
  cache : List (String × CacheEntry)
  usage : TtbKeyUsage
  rate : RateLimitState
  breaker : BreakerState
  httpCalls : ℕ
  deriving DecidableEq, Repr

/-- The state of a freshly constructed client whose limiter entries were
created at `now` (`getTtbKeyUsage` / `getRateLimitState` defaults). -/
def initialClientState (ttbKey : String) (now : JsDate) : ClientState where
  cache := []
  usage := freshTtbKeyUsage ttbKey now
  rate := freshRateLimitState now.time
  breaker := freshBreakerState
  httpCalls := 0

namespace AladinApiClient

/-- One `this.axios.get(...)` as the endpoint methods observe it: the
transport oracle is consulted at the current request index, and the response
interceptor fires — a success zeroes the breaker's failure count, a failure
bumps the breaker and converts the axios error to a `StandardError` before
rejecting. -/
def interceptedGet {α : Type} (http : ℕ → Except AxiosErr α) (now : ℤ)
    (s : ClientState) : Except Thrown α × ClientState :=
  let outcome := http s.httpCalls
  let s := { s with httpCalls := s.httpCalls + 1 }
  match outcome with
  | .ok r => (.ok r, { s with breaker := interceptorSuccessReset s.breaker })
  | .error e =>
    (.error (.std (handleApiError (.ax e))),
     { s with breaker := handleCircuitBreaker now s.breaker })

end AladinApiClient

/-! ## Request parameters and their validation (`src/client.ts`) -/

/-- Truthiness of an optional string field (`!params.X`): absent or empty is
falsy. -/
def optStrTruthy : Option String → Bool
  | none => false
  | some s => s ≠ ""

/-- One optional string field of a request-parameter object (absent fields
are dropped by `JSON.stringify`). -/
def optStrField (name : String) (v : Option String) : List (String × PVal) :=
  match v with
  | some x => [(name, .s x)]
  | none => []

/-- One optional integer field of a request-parameter object. -/
def optIntField (name : String) (v : Option ℤ) : List (String × PVal) :=
  match v with
  | some x => [(name, .n x)]
  | none => []

/-- `SearchBooksParams` (without the auto-injected `TTBKey` / `Version` /
`Output`). -/
structure SearchParams where
  Query : Option String
  QueryType : Option String
  SearchTarget : Option String
  /-- The `Sort` field (`Sort` is a Lean keyword, hence the changed name). -/
  SortOpt : Option String
  Cover : Option String
  CategoryId : Option ℤ
  Start : Option ℤ
  MaxResults : Option ℤ
  OptResult : Option (List String)
  deriving DecidableEq, Repr

/-- The parameter object of a search call, as a field list. -/
def SearchParams.fields (p : SearchParams) : List (String × PVal) :=
  optStrField "Query" p.Query ++ optStrField "QueryType" p.QueryType ++
    optStrField "SearchTarget" p.SearchTarget ++ optStrField "Sort" p.SortOpt ++
    optStrField "Cover" p.Cover ++ optIntField "CategoryId" p.CategoryId ++
    optIntField "Start" p.Start ++ optIntField "MaxResults" p.MaxResults ++
    (match p.OptResult with
     | some xs => [("OptResult", PVal.arr xs)]
     | none => [])

/-- `BookDetailsParams` (without the auto-injected common fields). -/
structure BookDetailsParams where
  ItemId : Option String
  ISBN : Option String
  ISBN13 : Option String
  Cover : Option String
  OptResult : Option (List String)
  deriving DecidableEq, Repr

/-- The parameter object of a lookup call, as a field list. -/
def BookDetailsParams.fields (p : BookDetailsParams) : List (String × PVal) :=
  optStrField "ItemId" p.ItemId ++ optStrField "ISBN" p.ISBN ++
    optStrField "ISBN13" p.ISBN13 ++ optStrField "Cover" p.Cover ++
    (match p.OptResult with
     | some xs => [("OptResult", PVal.arr xs)]
     | none => [])

/-- `ItemListParams` (without the auto-injected common fields). -/
structure ItemListParams where
  QueryType : Option String
  SearchTarget : Option String
  CategoryId : Option ℤ
  Cover : Option String
  Year : Option ℤ
  Month : Option ℤ
  Week : Option ℤ
  Start : Option ℤ
  MaxResults : Option ℤ
  deriving DecidableEq, Repr

/-- The parameter object of a list call, as a field list. -/
def ItemListParams.fields (p : ItemListParams) : List (String × PVal) :=
  optStrField "QueryType" p.QueryType ++ optStrField "SearchTarget" p.SearchTarget ++
    optIntField "CategoryId" p.CategoryId ++ optStrField "Cover" p.Cover ++
    optIntField "Year" p.Year ++ optIntField "Month" p.Month ++
    optIntField "Week" p.Week ++ optIntField "Start" p.Start ++
    optIntField "MaxResults" p.MaxResults

namespace AladinApiClient

/-- `AladinApiClient.validateIsbn`: pattern-only check (ISBN-10 or ISBN-13
shape, no checksum). -/
def validateIsbn (isbn : String) : ValidationResult :=
  if isbn = "" then ⟨false, ["ISBN이 필요합니다"]⟩
  else if ¬(isbn10PatternTest isbn ∨ isbn13PatternTest isbn) then
    ⟨false, ["유효하지 않은 ISBN 형식입니다 (10자리 또는 13자리 숫자)"]⟩
  else ⟨true, []⟩

/-- `validateSearchParams`: required non-empty `Query` with length bounds,
plus range checks on `CategoryId`, `Start`, `MaxResults`. -/
def validateSearchParams (p : SearchParams) : ValidationResult :=
  let queryErrors : List String :=
    if ¬optStrTruthy p.Query then ["검색 키워드는 필수입니다"]
    else
      let q := p.Query.getD ""
      if q.length < VALIDATION_RULES.MIN_QUERY_LENGTH then
        [s!"검색 키워드는 최소 {VALIDATION_RULES.MIN_QUERY_LENGTH}자 이상이어야 합니다"]
      else if q.length > VALIDATION_RULES.MAX_QUERY_LENGTH then
        [s!"검색 키워드는 최대 {VALIDATION_RULES.MAX_QUERY_LENGTH}자까지 입력 가능합니다"]
      else []
  let categoryErrors : List String :=
    match p.CategoryId with
    | some c =>
      if c < VALIDATION_RULES.MIN_CATEGORY_ID ∨ c > VALIDATION_RULES.MAX_CATEGORY_ID then
        ["카테고리 ID는 0~99999 범위여야 합니다"]
      else []
    | none => []
  let startErrors : List String :=
    match p.Start with
    | some st =>
      if st < VALIDATION_RULES.MIN_START ∨ st > VALIDATION_RULES.MAX_START then
        ["시작 위치는 1~1000 범위여야 합니다"]
      else []
    | none => []
  let maxResultsErrors : List String :=
    match p.MaxResults with
    | some m =>
      if m < VALIDATION_RULES.MIN_MAX_RESULTS ∨ m > VALIDATION_RULES.MAX_MAX_RESULTS then
        ["결과 개수는 1~50 범위여야 합니다"]
      else []
    | none => []
  let errors := queryErrors ++ categoryErrors ++ startErrors ++ maxResultsErrors
  ⟨errors.isEmpty, errors⟩

/-- `validateLookupParams`: at least one of `ItemId` / `ISBN` / `ISBN13`,
pattern check of `ISBN` via the client's `validateIsbn`, pattern check of
`ISBN13`. -/
def validateLookupParams (p : BookDetailsParams) : ValidationResult :=
  let idErrors : List String :=
    if ¬optStrTruthy p.ItemId ∧ ¬optStrTruthy p.ISBN ∧ ¬optStrTruthy p.ISBN13 then
      ["ItemId, ISBN, 또는 ISBN13 중 하나는 필수입니다"]
    else []
  let isbnErrors : List String :=
    if optStrTruthy p.ISBN then
      let v := validateIsbn (p.ISBN.getD "")
      if ¬v.isValid then v.errors else []
    else []
  let isbn13Errors : List String :=
    if optStrTruthy p.ISBN13 then
      if ¬isbn13PatternTest (p.ISBN13.getD "") then ["유효하지 않은 ISBN13 형식입니다"]
      else []
    else []
  let errors := idErrors ++ isbnErrors ++ isbn13Errors
  ⟨errors.isEmpty, errors⟩

/-- `VALIDATION_RULES.MIN_YEAR`, and `MAX_YEAR = new Date().getFullYear() + 1`
evaluated at module load (fixed here at its 2026 value). -/
def MIN_YEAR : ℤ := 1900
def MAX_YEAR : ℤ := 2027

/-- `validateListParams`: required `QueryType` plus range checks on
`CategoryId`, `Year`, `Month`, `Week`, `Start`, `MaxResults`. -/
def validateListParams (p : ItemListParams) : ValidationResult :=
  let queryTypeErrors : List String :=
    if ¬optStrTruthy p.QueryType then ["QueryType은 필수입니다"] else []
  let categoryErrors : List String :=
    match p.CategoryId with
    | some c =>
      if c < VALIDATION_RULES.MIN_CATEGORY_ID ∨ c > VALIDATION_RULES.MAX_CATEGORY_ID then
        ["카테고리 ID는 0~99999 범위여야 합니다"]
      else []
    | none => []
  let yearErrors : List String :=
    match p.Year with
    | some y => if y < MIN_YEAR ∨ y > MAX_YEAR then ["년도는 1900~2027 범위여야 합니다"] else []
    | none => []
  let monthErrors : List String :=
    match p.Month with
    | some m =>
      if m < VALIDATION_RULES.MIN_MONTH ∨ m > VALIDATION_RULES.MAX_MONTH then
        ["월은 1~12 범위여야 합니다"]
      else []
    | none => []
  let weekErrors : List String :=
    match p.Week with
    | some w =>
      if w < VALIDATION_RULES.MIN_WEEK ∨ w > VALIDATION_RULES.MAX_WEEK then
        ["주는 1~5 범위여야 합니다"]
      else []
    | none => []
  let startErrors : List String :=
    match p.Start with
    | some st =>
      if st < VALIDATION_RULES.MIN_START ∨ st > VALIDATION_RULES.MAX_START then
        ["시작 위치는 1~1000 범위여야 합니다"]
      else []
    | none => []
  let maxResultsErrors : List String :=
    match p.MaxResults with
    | some m =>
      if m < VALIDATION_RULES.MIN_MAX_RESULTS ∨ m > VALIDATION_RULES.MAX_MAX_RESULTS then
        ["결과 개수는 1~50 범위여야 합니다"]
      else []
    | none => []
  let errors := queryTypeErrors ++ categoryErrors ++ yearErrors ++ monthErrors ++
    weekErrors ++ startErrors ++ maxResultsErrors
  ⟨errors.isEmpty, errors⟩

/-! ### The endpoint methods

Each method is a function of its parameters, the call instant, the transport
oracle and the client state.  In `searchBooks` / `getBookDetails` the whole
body sits in a `try` whose `catch` re-classifies the thrown value through
`handleApiError` (a thrown `StandardError` fails `axios.isAxiosError` and is
re-wrapped by `handleGenericError` under the `API_CALL` context, code 900) and
records a failed call through `recordApiUsage` before re-throwing.  The list
methods throw their validation / quota / breaker errors outside any `try` (so
those propagate as raised) and never record usage. -/

/-- `searchBooks`. -/
def searchBooks (p : SearchParams) (now : JsDate)
    (http : ℕ → Except AxiosErr SearchResponse) (s : ClientState) :
    Except StandardError SearchResponse × ClientState :=
  let validation := validateSearchParams p
  if ¬validation.isValid then
    (.error (handleApiError (.std (AladinErrorHandler.handleValidationError validation.errors))),
     { s with usage := AladinRateLimiter.recordApiCall now false s.usage })
  else
    let cacheKey := createCacheKey "search" p.fields
    match getFromCache now.time cacheKey s.cache with
    | (some (.search cached), cache) => (.ok cached, { s with cache := cache })
    | (_, cache) =>
      -- Cache miss (a hit of another shape is impossible: every value stored
      -- under a "search"-tagged key is a `.search`).
      let s := { s with cache := cache }
      match AladinRateLimiter.checkRateLimit now s.usage s.rate with
      | (some e, usage, rate) =>
        (.error (handleApiError (.std e)),
         { s with usage := AladinRateLimiter.recordApiCall now false usage, rate := rate })
      | (none, usage, rate) =>
        let s := { s with usage := usage, rate := rate }
        match checkCircuitBreaker now.time s.breaker with
        | (some e, breaker) =>
          (.error (handleApiError (.std e)),
           { s with breaker := breaker,
                    usage := AladinRateLimiter.recordApiCall now false s.usage })
        | (none, breaker) =>
          let s := { s with breaker := breaker }
          match retryRequest (interceptedGet http now.time) HTTP_CONFIG.MAX_RETRIES s with
          | (.error e, s) =>
            (.error (handleApiError e),
             { s with usage := AladinRateLimiter.recordApiCall now false s.usage })
          | (.ok resp, s) =>
            let data := normalizeSearchResponse resp
            let s := { s with
              cache := setCache now.time cacheKey (.search data) CACHE_CONFIG.SEARCH_TTL s.cache }
            (.ok data, { s with usage := AladinRateLimiter.recordApiCall now true s.usage })

/-- `getBookDetails`. -/
def getBookDetails (p : BookDetailsParams) (now : JsDate)
    (http : ℕ → Except AxiosErr LookupResponse) (s : ClientState) :
    Except StandardError (Option BookItem) × ClientState :=
  let validation := validateLookupParams p
  if ¬validation.isValid then
    (.error (handleApiError (.std (AladinErrorHandler.handleValidationError validation.errors))),
     { s with usage := AladinRateLimiter.recordApiCall now false s.usage })
  else
    let cacheKey := createCacheKey "lookup" p.fields
    match getFromCache now.time cacheKey s.cache with
    | (some (.book (some cached)), cache) => (.ok (some cached), { s with cache := cache })
    | (_, cache) =>
      -- Cache miss; a stored lookup result of `null` (`.book none`) is falsy
      -- and also falls through to the miss path, exactly as `if (cached)`.
      let s := { s with cache := cache }
      match AladinRateLimiter.checkRateLimit now s.usage s.rate with
      | (some e, usage, rate) =>
        (.error (handleApiError (.std e)),
         { s with usage := AladinRateLimiter.recordApiCall now false usage, rate := rate })
      | (none, usage, rate) =>
        let s := { s with usage := usage, rate := rate }
        match checkCircuitBreaker now.time s.breaker with
        | (some e, breaker) =>
          (.error (handleApiError (.std e)),
           { s with breaker := breaker,
                    usage := AladinRateLimiter.recordApiCall now false s.usage })
        | (none, breaker) =>
          let s := { s with breaker := breaker }
          match retryRequest (interceptedGet http now.time) HTTP_CONFIG.MAX_RETRIES s with
          | (.error e, s) =>
            (.error (handleApiError e),
             { s with usage := AladinRateLimiter.recordApiCall now false s.usage })
          | (.ok resp, s) =>
            let normalized := normalizeLookupResponse resp
            let data := (normalized.item.getD []).head?
            let s := { s with
              cache := setCache now.time cacheKey (.book data) CACHE_CONFIG.LOOKUP_TTL s.cache }
            (.ok data, { s with usage := AladinRateLimiter.recordApiCall now true s.usage })

/-- The common body of the three `ItemList.aspx` methods (`getBestsellerList`,
`getNewReleasesList`, `getItemList`), which differ only in how the parameters
are shaped and in the cache-key tag; validation, quota and breaker errors are
raised outside any `try`/`catch` and no usage is recorded. -/
def itemListCall (tag : String) (p : ItemListParams) (now : JsDate)
    (http : ℕ → Except AxiosErr LookupResponse) (s : ClientState) :
    Except StandardError LookupResponse × ClientState :=
  let validation := validateListParams p
  if ¬validation.isValid then
    (.error (createStandardError 300 (String.intercalate ", " validation.errors)), s)
  else
    let cacheKey := createCacheKey tag p.fields
    match getFromCache now.time cacheKey s.cache with
    | (some (.list cached), cache) => (.ok cached, { s with cache := cache })
    | (_, cache) =>
      let s := { s with cache := cache }
      match AladinRateLimiter.checkRateLimit now s.usage s.rate with
      | (some e, usage, rate) => (.error e, { s with usage := usage, rate := rate })
      | (none, usage, rate) =>
        let s := { s with usage := usage, rate := rate }
        match checkCircuitBreaker now.time s.breaker with
        | (some e, breaker) => (.error e, { s with breaker := breaker })
        | (none, breaker) =>
          let s := { s with breaker := breaker }
          match retryRequest (interceptedGet http now.time) HTTP_CONFIG.MAX_RETRIES s with
          | (.error e, s) => (.error (handleApiError e), s)
          | (.ok resp, s) =>
            let data := normalizeLookupResponse resp
            let s := { s with
              cache := setCache now.time cacheKey (.list data) CACHE_CONFIG.LIST_TTL s.cache }
            (.ok data, s)

/-- `getBestsellerList`: forces `QueryType := 'Bestseller'` and uses the
`bestseller` cache-key tag. -/
def getBestsellerList (p : ItemListParams) (now : JsDate)
    (http : ℕ → Except AxiosErr LookupResponse) (s : ClientState) :
    Except StandardError LookupResponse × ClientState :=
  itemListCall "bestseller" { p with QueryType := some "Bestseller" } now http s

/-- `getNewReleasesList`: caller-supplied `QueryType` (`NewBook` /
`NewSpecial`), `newreleases` cache-key tag. -/
def getNewReleasesList (p : ItemListParams) (now : JsDate)
    (http : ℕ → Except AxiosErr LookupResponse) (s : ClientState) :
    Except StandardError LookupResponse × ClientState :=
  itemListCall "newreleases" p now http s

/-- `getItemList`: caller-supplied `QueryType`, `itemlist` cache-key tag. -/
def getItemList (p : ItemListParams) (now : JsDate)
    (http : ℕ → Except AxiosErr LookupResponse) (s : ClientState) :
    Except StandardError LookupResponse × ClientState :=
  itemListCall "itemlist" p now http s

end AladinApiClient

/-! ## Theorems -/

/-- C1: a request function that fails on every invocation with a retryable
error (e.g. an HTTP 500 each time) is invoked exactly
`HTTP_CONFIG.MAX_RETRIES + 1 = 4` times by `retryRequest` before the error is
propagated; a request function whose first failure is non-retryable (e.g. an
HTTP 400) is invoked exactly once and its error propagates unchanged. -/
theorem retryRequest_retry_ceiling :
    (∀ (α : Type) (oracle : ℕ → Except Thrown α),
        (∀ k, ∃ e, oracle k = .error e ∧ AladinApiClient.isRetryableError e = true) →
        ∃ e, AladinApiClient.retryRequest (fun k => (oracle k, k + 1))
            HTTP_CONFIG.MAX_RETRIES 0 = (.error e, 4)) ∧
    (∀ (α : Type) (oracle : ℕ → Except Thrown α) (e : Thrown),
        oracle 0 = .error e → AladinApiClient.isRetryableError e = false →
        AladinApiClient.retryRequest (fun k => (oracle k, k + 1))
            HTTP_CONFIG.MAX_RETRIES 0 = (.error e, 1)) := by
  constructor
  · intro α oracle h
    obtain ⟨e0, h0, r0⟩ := h 0
    obtain ⟨e1, h1, r1⟩ := h 1
    obtain ⟨e2, h2, r2⟩ := h 2
    obtain ⟨e3, h3, r3⟩ := h 3
    refine ⟨e3, ?_⟩
    simp [AladinApiClient.retryRequest, HTTP_CONFIG.MAX_RETRIES, h0, h1, h2, h3, r0, r1, r2, r3]
  · intro α oracle e h he
    simp [AladinApiClient.retryRequest, HTTP_CONFIG.MAX_RETRIES, h, he]

/-- C1 witness: a transport answering HTTP 500 on every attempt is called 4
times; a transport whose first answer is HTTP 400 is called once. -/
theorem retryRequest_retry_ceiling_witness :
    (∃ e, AladinApiClient.retryRequest
        (fun k => ((fun (_ : ℕ) => (Except.error (.ax ⟨some 500, none, "", none, "HTTP 500"⟩) :
            Except Thrown SearchResponse)) k, k + 1)) HTTP_CONFIG.MAX_RETRIES 0 = (.error e, 4)) ∧
    AladinApiClient.retryRequest
        (fun k => ((fun (_ : ℕ) => (Except.error (.ax ⟨some 400, none, "", none, "HTTP 400"⟩) :
            Except Thrown SearchResponse)) k, k + 1)) HTTP_CONFIG.MAX_RETRIES 0 =
      (.error (.ax ⟨some 400, none, "", none, "HTTP 400"⟩), 1) := by
  constructor
  · exact retryRequest_retry_ceiling.1 SearchResponse _ (fun k => ⟨_, rfl, rfl⟩)
  · exact retryRequest_retry_ceiling.2 SearchResponse _ _ rfl rfl


/-- C2 -/
theorem circuit_breaker_open_close :
    ∀ (s : BreakerState) (t1 t2 t3 t4 t5 now now2 : ℤ),
      s.circuitBreakerFailures = 0 →
      ((now - t5 < CIRCUIT_BREAKER_TIMEOUT →
        AladinApiClient.checkCircuitBreaker now
            (List.foldl (fun st t => AladinApiClient.handleCircuitBreaker t st) s
              [t1, t2, t3, t4, t5]) =
          (some (createStandardError 900
            "서비스가 일시적으로 차단되었습니다. 잠시 후 다시 시도해 주세요."),
           List.foldl (fun st t => AladinApiClient.handleCircuitBreaker t st) s
             [t1, t2, t3, t4, t5])) ∧
       (now2 - t5 ≥ CIRCUIT_BREAKER_TIMEOUT →
        AladinApiClient.checkCircuitBreaker now2
            (List.foldl (fun st t => AladinApiClient.handleCircuitBreaker t st) s
              [t1, t2, t3, t4, t5]) = (none, ⟨0, none⟩))) ∧
      (∀ st : BreakerState,
        (AladinApiClient.interceptorSuccessReset st).circuitBreakerFailures = 0) := by
  intro s t1 t2 t3 t4 t5 now now2 h0
  refine ⟨⟨?_, ?_⟩, fun st => rfl⟩
  · intro hlt
    have hlt' : now - t5 < (60000 : ℤ) := hlt
    simp [AladinApiClient.handleCircuitBreaker, AladinApiClient.checkCircuitBreaker,
      CIRCUIT_BREAKER_THRESHOLD, CIRCUIT_BREAKER_TIMEOUT, h0, hlt']
  · intro hge
    have hge' : (60000 : ℤ) ≤ now2 - t5 := hge
    simp [AladinApiClient.handleCircuitBreaker, AladinApiClient.checkCircuitBreaker,
      CIRCUIT_BREAKER_THRESHOLD, CIRCUIT_BREAKER_TIMEOUT, h0, not_lt.mpr hge']

/-- C2 witness: five failures at instants 1..5 from a clean breaker leave it
open at instant 6 and reset-and-pass at instant 60005. -/
theorem circuit_breaker_open_close_witness :
    (BreakerState.circuitBreakerFailures ⟨0, none⟩ = 0) ∧
    (6 : ℤ) - 5 < CIRCUIT_BREAKER_TIMEOUT ∧
    (60005 : ℤ) - 5 ≥ CIRCUIT_BREAKER_TIMEOUT ∧
    AladinApiClient.checkCircuitBreaker 6
        (List.foldl (fun st t => AladinApiClient.handleCircuitBreaker t st)
          (⟨0, none⟩ : BreakerState) [1, 2, 3, 4, 5]) =
      (some (createStandardError 900
        "서비스가 일시적으로 차단되었습니다. 잠시 후 다시 시도해 주세요."),
       List.foldl (fun st t => AladinApiClient.handleCircuitBreaker t st)
         (⟨0, none⟩ : BreakerState) [1, 2, 3, 4, 5]) ∧
    AladinApiClient.checkCircuitBreaker 60005
        (List.foldl (fun st t => AladinApiClient.handleCircuitBreaker t st)
          (⟨0, none⟩ : BreakerState) [1, 2, 3, 4, 5]) = (none, ⟨0, none⟩) :=
  ⟨rfl, by decide, by decide,
    (circuit_breaker_open_close ⟨0, none⟩ 1 2 3 4 5 6 60005 rfl).1.1 (by decide),
    (circuit_breaker_open_close ⟨0, none⟩ 1 2 3 4 5 6 60005 rfl).1.2 (by decide)⟩


/-- Looking a key up right after `mapSet` stores it finds the stored value. -/
theorem mapGet_mapSet {α : Type} (m : List (String × α)) (key : String) (v : α) :
    mapGet (mapSet m key v) key = some v := by
  by_cases h : m.any fun p => p.1 = key
  · simp only [mapSet, h, if_true]
    induction m with
    | nil => simp at h
    | cons p m ih =>
      by_cases hp : p.1 = key
      · simp [mapGet, hp]
      · have h' : m.any fun q => q.1 = key := by
          simpa [List.any_cons, hp] using h
        simpa [mapGet, hp] using ih h'
  · simp only [mapSet, h, if_false]
    induction m with
    | nil => simp [mapGet]
    | cons p m ih =>
      have hp : ¬p.1 = key := by
        intro hk
        exact h (by simp [List.any_cons, hk])
      have h' : ¬m.any fun q => q.1 = key := by
        intro hk
        exact h (by simp [List.any_cons, hk])
      simpa [mapGet, hp] using ih h'

/-- `setCache` stores the entry under its key. -/
theorem mapGet_setCache (t0 T : ℤ) (key : String) (v : CachedData)
    (c : List (String × CacheEntry)) :
    mapGet (setCache t0 key v T c) key = some ⟨v, t0, T⟩ := by
  unfold setCache
  exact mapGet_mapSet _ key _

/-- C4 counterexample -/
theorem cache_ttl_boundary_counterexample :
    getFromCache (0 + 1000) "aladin_mcp:search:k"
        (setCache 0 "aladin_mcp:search:k"
          (.search ⟨"1.0", "t", "l", "p", 0, 1, 10, "q", none⟩) 1000 []) =
      (some (.search ⟨"1.0", "t", "l", "p", 0, 1, 10, "q", none⟩),
       setCache 0 "aladin_mcp:search:k"
         (.search ⟨"1.0", "t", "l", "p", 0, 1, 10, "q", none⟩) 1000 []) := by
  decide

/-- C4 amended -/
theorem cache_ttl_amended :
    ∀ (t0 T t : ℤ) (key : String) (v : CachedData) (c : List (String × CacheEntry)),
      (t0 ≤ t → t - t0 ≤ T →
        getFromCache t key (setCache t0 key v T c) = (some v, setCache t0 key v T c)) ∧
      (t - t0 > T →
        getFromCache t key (setCache t0 key v T c) =
          (none, mapDelete (setCache t0 key v T c) key)) := by
  intro t0 T t key v c
  constructor
  · intro _ hle
    simp [getFromCache, mapGet_setCache, not_lt.mpr hle]
  · intro hgt
    simp [getFromCache, mapGet_setCache, hgt]

/-- C4 witness: an entry stored at 0 with ttl 1000 is still served at 500. -/
theorem cache_ttl_amended_witness :
    (0 : ℤ) ≤ 500 ∧ (500 : ℤ) - 0 ≤ 1000 ∧
    getFromCache 500 "k" (setCache 0 "k" (.list ⟨"1.0", "t", "l", "p", none⟩) 1000 []) =
      (some (.list ⟨"1.0", "t", "l", "p", none⟩),
       setCache 0 "k" (.list ⟨"1.0", "t", "l", "p", none⟩) 1000 []) :=
  ⟨by decide, by decide,
    (cache_ttl_amended 0 1000 500 "k" (.list ⟨"1.0", "t", "l", "p", none⟩) []).1
      (by decide) (by decide)⟩


/-- C5: `recordApiCall` increments `dailyCount` by exactly 1 on every call
(never decreases it); but the lazy rollover detection in `checkDailyLimit`
compares only `getDate()` (the day of month), so at the failing input —
`lastReset` on 2025-01-15 (epoch ms 1736899200000, day 15) and the next check
on 2025-02-15 (epoch ms 1739577600000, day 15), a full wall-clock date
rollover — no reset happens: the check observes `dailyCount = 7`, not 0. -/
theorem recordApiCall_monotone_and_dayOfMonth_rollover :
    (∀ (now : JsDate) (success : Bool) (usage : TtbKeyUsage),
        (AladinRateLimiter.recordApiCall now success usage).dailyCount =
          usage.dailyCount + 1) ∧
    AladinRateLimiter.checkDailyLimit ⟨1739577600000, 15⟩
        { ttbKey := "ttbalbert.rim1712001", dailyCount := 7, dailyLimit := 5000,
          lastReset := ⟨1736899200000, 15⟩, lastCall := ⟨1736899200000, 15⟩,
          lastValidation := 0, isValid := true, requestHistory := [],
          totalRequests := 7, successfulRequests := 7, failedRequests := 0 } =
      (none,
       { ttbKey := "ttbalbert.rim1712001", dailyCount := 7, dailyLimit := 5000,
         lastReset := ⟨1736899200000, 15⟩, lastCall := ⟨1736899200000, 15⟩,
         lastValidation := 0, isValid := true, requestHistory := [],
         totalRequests := 7, successfulRequests := 7, failedRequests := 0 }) ∧
    (7 : ℕ) ≠ 0 := by
  refine ⟨fun now success usage => rfl, by decide, by decide⟩


/-- Association-list lookup is invariant under permutation when the keys are
distinct. -/
theorem lookup_eq_of_perm_of_nodup {l₁ l₂ : List (String × PVal)}
    (hp : l₁.Perm l₂) :
    (l₁.map Prod.fst).Nodup → ∀ k, l₁.lookup k = l₂.lookup k := by
  induction hp with
  | nil => intro _ k; rfl
  | cons x _ ih =>
    intro hd k
    simp only [List.map_cons, List.nodup_cons] at hd
    obtain ⟨x1, x2⟩ := x
    by_cases hkx : k = x1
    · simp [List.lookup, hkx]
    · simp [List.lookup, beq_false_of_ne hkx, ih hd.2 k]
  | swap x y l =>
    intro hd k
    obtain ⟨x1, x2⟩ := x
    obtain ⟨y1, y2⟩ := y
    simp only [List.map_cons, List.nodup_cons, List.mem_cons] at hd
    have hxy : y1 ≠ x1 := fun h => hd.1 (Or.inl h)
    by_cases hkx : k = x1
    · subst hkx
      simp [List.lookup, beq_false_of_ne (fun h => hxy h.symm)]
    · by_cases hky : k = y1
      · subst hky
        simp [List.lookup, beq_false_of_ne hkx]
      · simp [List.lookup, beq_false_of_ne hkx, beq_false_of_ne hky]
  | trans h₁ _ ih₁ ih₂ =>
    intro hd k
    have hd₂ : _ := ((h₁.map Prod.fst).nodup_iff).mp hd
    exact (ih₁ hd k).trans (ih₂ hd₂ k)

/-- C7 -/
theorem createCacheKey_deterministic (tag : String) (p₁ p₂ : List (String × PVal))
    (hp : p₁.Perm p₂) (hd : (p₁.map Prod.fst).Nodup) :
    createCacheKey tag p₁ = createCacheKey tag p₂ := by
  have hkeys : (p₁.map Prod.fst).insertionSort (· ≤ ·) =
      (p₂.map Prod.fst).insertionSort (· ≤ ·) :=
    List.eq_of_perm_of_sorted
      ((List.perm_insertionSort _ _).trans
        ((hp.map Prod.fst).trans (List.perm_insertionSort _ _).symm))
      (List.sorted_insertionSort _ _) (List.sorted_insertionSort _ _)
  have hf : (fun k => (p₁.lookup k).map fun v => (k, v)) =
      (fun k => (p₂.lookup k).map fun v => (k, v)) := by
    funext k
    rw [lookup_eq_of_perm_of_nodup hp hd k]
  simp only [createCacheKey]
  rw [hkeys, hf]

/-- C7 witness -/
theorem createCacheKey_deterministic_witness :
    ([("Query", PVal.s "클린 코드"), ("MaxResults", PVal.n 10)].Perm
      [("MaxResults", PVal.n 10), ("Query", PVal.s "클린 코드")]) ∧
    (([("Query", PVal.s "클린 코드"), ("MaxResults", PVal.n 10)].map Prod.fst).Nodup) ∧
    createCacheKey "search" [("Query", PVal.s "클린 코드"), ("MaxResults", PVal.n 10)] =
      createCacheKey "search" [("MaxResults", PVal.n 10), ("Query", PVal.s "클린 코드")] :=
  ⟨by decide, by decide,
    createCacheKey_deterministic "search" _ _ (by decide) (by decide)⟩


/-- C8: `validateIsbn10` accepts exactly the strings matching `^\d{9}[\dX]$`
whose mod-11 weighted checksum is correct, `validateIsbn13` accepts exactly
the strings matching `^\d{13}$` whose alternating-1,3 mod-10 checksum is
correct; in particular "0747532699" / "9780747532699" are valid and
"0747532698" / "9780747532690" are not. -/
theorem isbn_validators_spec :
    (∀ s : String, (validateIsbn10 s).isValid = true ↔ specIsbn10Accepts s) ∧
    (∀ s : String, (validateIsbn13 s).isValid = true ↔ specIsbn13Accepts s) ∧
    (validateIsbn10 "0747532699").isValid = true ∧
    (validateIsbn10 "0747532698").isValid = false ∧
    (validateIsbn13 "9780747532699").isValid = true ∧
    (validateIsbn13 "9780747532690").isValid = false := by
  refine ⟨?_, ?_, by decide, by decide, by decide, by decide⟩
  · intro s
    by_cases h0 : s = ""
    · subst h0
      constructor
      · intro h
        simp [validateIsbn10] at h
      · intro h
        exact absurd h.1 (by decide)
    · by_cases hpat : isbn10PatternTest s
      · simp [validateIsbn10, h0, hpat, specIsbn10Accepts]
        split <;> simp_all
      · simp [validateIsbn10, h0, hpat, specIsbn10Accepts]
  · intro s
    by_cases h0 : s = ""
    · subst h0
      constructor
      · intro h
        simp [validateIsbn13] at h
      · intro h
        exact absurd h.1 (by decide)
    · by_cases hpat : isbn13PatternTest s
      · simp [validateIsbn13, h0, hpat, specIsbn13Accepts]
        split <;> simp_all
      · simp [validateIsbn13, h0, hpat, specIsbn13Accepts]


/-- Within one burst window, calls are admitted while the burst counter is
below the limit, each admission counting once. -/
theorem iterBurst_admits :
    ∀ (n : ℕ) (st : RateLimitState) (now : ℤ),
      now - st.lastBurstReset ≤ RATE_LIMIT_CONFIG.BURST_WINDOW →
      st.burstCount + n ≤ RATE_LIMIT_CONFIG.BURST_LIMIT →
      AladinRateLimiter.iterBurst now n st =
        (none, { st with burstCount := st.burstCount + n }) := by
  intro n
  induction n with
  | zero =>
    intro st now _ _
    rw [show AladinRateLimiter.iterBurst now 0 st = (none, st) from rfl]
    simp
  | succ n ih =>
    intro st now hw hc
    have hw' : ¬((1000 : ℤ) < now - st.lastBurstReset) := not_lt.mpr hw
    have hlt : ¬(10 ≤ st.burstCount) := by
      simp only [RATE_LIMIT_CONFIG.BURST_LIMIT] at hc
      omega
    have step : AladinRateLimiter.checkBurstLimit now st =
        (none, { st with burstCount := st.burstCount + 1 }) := by
      simp [AladinRateLimiter.checkBurstLimit, RATE_LIMIT_CONFIG.BURST_WINDOW,
        RATE_LIMIT_CONFIG.BURST_LIMIT, hw', hlt]
    rw [show AladinRateLimiter.iterBurst now (n + 1) st =
        (match AladinRateLimiter.checkBurstLimit now st with
         | (some e, st) => (some e, st)
         | (none, st) => AladinRateLimiter.iterBurst now n st) from rfl, step]
    show AladinRateLimiter.iterBurst now n { st with burstCount := st.burstCount + 1 } = _
    rw [ih { st with burstCount := st.burstCount + 1 } now (by simpa using hw)
      (by simp only [RATE_LIMIT_CONFIG.BURST_LIMIT] at hc ⊢; omega)]
    have harith : st.burstCount + 1 + n = st.burstCount + (n + 1) := by omega
    simp [harith]

/-- C9: starting from a fresh burst counter inside one burst window, ten
calls are admitted (counting up to the burst limit 10); the eleventh call in
the same window makes `checkBurstLimit` — and hence `checkRateLimit`, when
the daily-limit, key-validity and frequency checks pass — raise the
`BURST_LIMIT_EXCEEDED`-tagged generic error, which the error handler
classifies as retryable; a call after the window has elapsed resets the
counter and is admitted again. -/
theorem burst_limit_behavior :
    ∀ (st : RateLimitState) (now : JsDate),
      now.time - st.lastBurstReset ≤ RATE_LIMIT_CONFIG.BURST_WINDOW →
      st.burstCount = 0 →
      st.isBlocked = false →
      (AladinRateLimiter.iterBurst now.time 10 st = (none, { st with burstCount := 10 })) ∧
      (∃ msg, AladinRateLimiter.checkBurstLimit now.time { st with burstCount := 10 } =
          (some (AladinErrorHandler.handleGenericError msg (some "BURST_LIMIT_EXCEEDED")),
           { st with burstCount := 10 }) ∧
        AladinErrorHandler.isRetryableError
          (AladinErrorHandler.handleGenericError msg (some "BURST_LIMIT_EXCEEDED")) = true) ∧
      (∀ now2 : ℤ, now2 - st.lastBurstReset > RATE_LIMIT_CONFIG.BURST_WINDOW →
        AladinRateLimiter.checkBurstLimit now2 { st with burstCount := 10 } =
          (none, { st with burstCount := 1, lastBurstReset := now2 })) ∧
      (∀ usage : TtbKeyUsage,
        usage.lastReset.dayOfMonth = now.dayOfMonth →
        usage.dailyCount < usage.dailyLimit →
        ttbKeyPatternTest usage.ttbKey = true →
        usage.isValid = true →
        (usage.requestHistory.filter fun t => now.time - t ≤ 1000).length < 5 →
        ∃ e u r, AladinRateLimiter.checkRateLimit now usage { st with burstCount := 10 } =
            (some e, u, r) ∧ e.code = 900 ∧ AladinErrorHandler.isRetryableError e = true) := by
  intro st now hw h0 hb
  have hw' : ¬((1000 : ℤ) < now.time - st.lastBurstReset) := not_lt.mpr hw
  have hbl : AladinRateLimiter.checkBurstLimit now.time { st with burstCount := 10 } =
      (some (AladinErrorHandler.handleGenericError
        (s!"버스트 제한으로 인해 {RATE_LIMIT_CONFIG.BURST_WINDOW - (now.time - st.lastBurstReset)}ms 후 다시 시도해 주세요.")
        (some "BURST_LIMIT_EXCEEDED")), { st with burstCount := 10 }) := by
    simp [AladinRateLimiter.checkBurstLimit, RATE_LIMIT_CONFIG.BURST_WINDOW,
      RATE_LIMIT_CONFIG.BURST_LIMIT, hw']
  refine ⟨?_, ⟨_, hbl, rfl⟩, ?_, ?_⟩
  · have := iterBurst_admits 10 st now.time hw
      (by simp [h0, RATE_LIMIT_CONFIG.BURST_LIMIT])
    simpa [h0] using this
  · intro now2 hw2
    have hw2' : (1000 : ℤ) < now2 - st.lastBurstReset := hw2
    simp [AladinRateLimiter.checkBurstLimit, RATE_LIMIT_CONFIG.BURST_WINDOW,
      RATE_LIMIT_CONFIG.BURST_LIMIT, hw2']
  · intro usage hday hcount hpat hvalid hfreq
    have hd : AladinRateLimiter.checkDailyLimit now usage = (none, usage) := by
      simp [AladinRateLimiter.checkDailyLimit, hday, not_le.mpr hcount]
    obtain ⟨u, hu, huh⟩ : ∃ u, AladinRateLimiter.validateTtbKeyUsage now usage = (none, u) ∧
        u.requestHistory = usage.requestHistory := by
      by_cases hiv :
          now.time - usage.lastValidation > RATE_LIMIT_CONFIG.TTB_VALIDATION_INTERVAL
      · refine ⟨{ usage with isValid := true, lastValidation := now.time }, ?_, rfl⟩
        simp [AladinRateLimiter.validateTtbKeyUsage, hiv, hpat, hvalid]
      · refine ⟨usage, ?_, rfl⟩
        simp [AladinRateLimiter.validateTtbKeyUsage, hiv, hpat, hvalid]
    have hfr : AladinRateLimiter.checkRequestFrequency now u { st with burstCount := 10 } =
        (none, { st with burstCount := 10 }) := by
      simp only [AladinRateLimiter.checkRequestFrequency, hb, huh, Bool.false_eq_true,
        false_and, if_false]
      exact if_neg (not_le.mpr hfreq)
    refine ⟨AladinErrorHandler.handleGenericError
        (s!"버스트 제한으로 인해 {RATE_LIMIT_CONFIG.BURST_WINDOW - (now.time - st.lastBurstReset)}ms 후 다시 시도해 주세요.")
        (some "BURST_LIMIT_EXCEEDED"), u, { st with burstCount := 10 }, ?_, rfl, rfl⟩
    simp only [AladinRateLimiter.checkRateLimit, hd, hu, hfr, hbl]

/-- C9 witness: a fresh per-key throttle state at instant 0, probed at
instant 500 — ten admissions, then a retryable burst error, then admission
again at instant 1501; the composed `checkRateLimit` raises the burst error
for a fresh usage record. -/
theorem burst_limit_behavior_witness :
    ((500 : ℤ) - (freshRateLimitState 0).lastBurstReset ≤ RATE_LIMIT_CONFIG.BURST_WINDOW) ∧
    ((freshRateLimitState 0).burstCount = 0) ∧
    ((freshRateLimitState 0).isBlocked = false) ∧
    (AladinRateLimiter.iterBurst 500 10 (freshRateLimitState 0) =
      (none, { freshRateLimitState 0 with burstCount := 10 })) ∧
    (∃ msg, AladinRateLimiter.checkBurstLimit 500 { freshRateLimitState 0 with burstCount := 10 } =
        (some (AladinErrorHandler.handleGenericError msg (some "BURST_LIMIT_EXCEEDED")),
         { freshRateLimitState 0 with burstCount := 10 }) ∧
      AladinErrorHandler.isRetryableError
        (AladinErrorHandler.handleGenericError msg (some "BURST_LIMIT_EXCEEDED")) = true) ∧
    (AladinRateLimiter.checkBurstLimit 1501 { freshRateLimitState 0 with burstCount := 10 } =
      (none, { freshRateLimitState 0 with burstCount := 1, lastBurstReset := 1501 })) ∧
    (∃ e u r, AladinRateLimiter.checkRateLimit ⟨500, 15⟩
        (freshTtbKeyUsage "ttbalbert.rim1712001" ⟨500, 15⟩)
        { freshRateLimitState 0 with burstCount := 10 } =
        (some e, u, r) ∧ e.code = 900 ∧ AladinErrorHandler.isRetryableError e = true) := by
  have h := burst_limit_behavior (freshRateLimitState 0) ⟨500, 15⟩ (by decide) rfl rfl
  exact ⟨by decide, rfl, rfl, h.1, h.2.1, h.2.2.1 1501 (by decide),
    h.2.2.2 (freshTtbKeyUsage "ttbalbert.rim1712001" ⟨500, 15⟩) rfl (by decide) (by decide)
      rfl (by decide)⟩


/-- The string coercion `x || ''` is idempotent on every value, and yields a
string on loosely-string-typed values. -/
theorem coerceStr_good (v : JsVal) :
    coerceStr (coerceStr v) = coerceStr v ∧ (looseStrField v = true → isStrVal (coerceStr v)) := by
  cases v with
  | str s =>
    by_cases h : s = ""
    · subst h
      exact ⟨rfl, fun _ => ⟨"", rfl⟩⟩
    · refine ⟨?_, fun _ => ⟨s, ?_⟩⟩ <;> simp [coerceStr, jsOr, JsVal.truthy, h]
  | num n =>
    cases n with
    | val q =>
      by_cases h : q = 0
      · subst h
        exact ⟨rfl, fun hf => absurd hf (by simp [looseStrField])⟩
      · refine ⟨?_, fun hf => absurd hf (by simp [looseStrField])⟩
        simp [coerceStr, jsOr, JsVal.truthy, JsNum.truthy, h]
    | nan => exact ⟨rfl, fun hf => absurd hf (by simp [looseStrField])⟩
  | boolean b =>
    cases b with
    | false => exact ⟨rfl, fun hf => absurd hf (by simp [looseStrField])⟩
    | true => exact ⟨rfl, fun hf => absurd hf (by simp [looseStrField])⟩
  | undef => exact ⟨rfl, fun _ => ⟨"", rfl⟩⟩

/-- `Boolean(x)` is idempotent and always yields a boolean. -/
theorem coerceBool_good (v : JsVal) :
    coerceBool (coerceBool v) = coerceBool v ∧ isBoolVal (coerceBool v) :=
  ⟨rfl, ⟨v.truthy, rfl⟩⟩

/-- The integer coercion is idempotent and yields a number on
loosely-number-typed values whose strings parse. -/
theorem coerceNumInt_good (v : JsVal) (h : looseNumField v = true) :
    coerceNumInt (coerceNumInt v) = coerceNumInt v ∧ isNumVal (coerceNumInt v) := by
  cases v with
  | str s =>
    rw [looseNumField, bne_iff_ne] at h
    cases hp : parseInt s with
    | val q =>
      by_cases hq : q = 0
      · subst hq
        simp [coerceNumInt, jsOr, JsVal.truthy, JsNum.truthy, hp, isNumVal]
      · simp [coerceNumInt, jsOr, JsVal.truthy, JsNum.truthy, hp, hq, isNumVal]
    | nan => exact absurd hp h
  | num n =>
    cases n with
    | val q =>
      by_cases hq : q = 0
      · subst hq
        simp [coerceNumInt, jsOr, JsVal.truthy, JsNum.truthy, isNumVal]
      · simp [coerceNumInt, jsOr, JsVal.truthy, JsNum.truthy, hq, isNumVal]
    | nan => simp [coerceNumInt, jsOr, JsVal.truthy, JsNum.truthy, isNumVal]
  | boolean b => exact absurd h (by simp [looseNumField])
  | undef => simp [coerceNumInt, jsOr, JsVal.truthy, isNumVal]

/-- The float coercion is idempotent and yields a number on
loosely-number-typed values whose strings parse. -/
theorem coerceNumFloat_good (v : JsVal) (h : looseNumFieldF v = true) :
    coerceNumFloat (coerceNumFloat v) = coerceNumFloat v ∧ isNumVal (coerceNumFloat v) := by
  cases v with
  | str s =>
    rw [looseNumFieldF, bne_iff_ne] at h
    cases hp : parseFloat s with
    | val q =>
      by_cases hq : q = 0
      · subst hq
        simp [coerceNumFloat, jsOr, JsVal.truthy, JsNum.truthy, hp, isNumVal]
      · simp [coerceNumFloat, jsOr, JsVal.truthy, JsNum.truthy, hp, hq, isNumVal]
    | nan => exact absurd hp h
  | num n =>
    cases n with
    | val q =>
      by_cases hq : q = 0
      · subst hq
        simp [coerceNumFloat, jsOr, JsVal.truthy, JsNum.truthy, isNumVal]
      · simp [coerceNumFloat, jsOr, JsVal.truthy, JsNum.truthy, hq, isNumVal]
    | nan => simp [coerceNumFloat, jsOr, JsVal.truthy, JsNum.truthy, isNumVal]
  | boolean b => exact absurd h (by simp [looseNumFieldF])
  | undef => simp [coerceNumFloat, jsOr, JsVal.truthy, isNumVal]

/-- C10 counterexample: an item whose `priceSales` is the non-numeric string
"abc" normalizes to `NaN` on the first pass and to `0` on the second, so
`normalizeBookItem` is not idempotent as claimed. -/
theorem normalizeBookItem_not_idempotent_counterexample :
    normalizeBookItem (normalizeBookItem
      { itemId := .undef, title := .undef, author := .undef, publisher := .undef,
        pubDate := .undef, description := .undef, isbn := .undef, isbn13 := .undef,
        priceSales := .str "abc", priceStandard := .undef, cover := .undef,
        categoryId := .undef, categoryName := .undef, salesPoint := .undef,
        customerReviewRank := .undef, adult := .undef, fixedPrice := .undef,
        mileage := .undef, stockStatus := .undef, mallType := .undef, link := .undef,
        subInfo := none }) ≠
    normalizeBookItem
      { itemId := .undef, title := .undef, author := .undef, publisher := .undef,
        pubDate := .undef, description := .undef, isbn := .undef, isbn13 := .undef,
        priceSales := .str "abc", priceStandard := .undef, cover := .undef,
        categoryId := .undef, categoryName := .undef, salesPoint := .undef,
        customerReviewRank := .undef, adult := .undef, fixedPrice := .undef,
        mileage := .undef, stockStatus := .undef, mallType := .undef, link := .undef,
        subInfo := none } := by
  decide

/-- C10 amended: on items whose string-typed fields are strings or absent and
whose number-typed fields are numbers, absent, or strings parsing to a
non-`NaN` number, `normalizeBookItem` is idempotent; after one application the
number fields hold numbers, the string fields strings, `adult` / `fixedPrice`
booleans (the latter for every item), and `subInfo` is passed through
unchanged (also for every item). -/
theorem normalizeBookItem_idempotent_amended (x : BookItem)
    (hItemId : looseNumField x.itemId = true) (hPriceSales : looseNumField x.priceSales = true)
    (hPriceStandard : looseNumField x.priceStandard = true)
    (hCategoryId : looseNumField x.categoryId = true) (hSalesPoint : looseNumField x.salesPoint = true)
    (hReview : looseNumFieldF x.customerReviewRank = true) (hMileage : looseNumField x.mileage = true)
    (hTitle : looseStrField x.title = true) (hAuthor : looseStrField x.author = true)
    (hPublisher : looseStrField x.publisher = true) (hPubDate : looseStrField x.pubDate = true)
    (hDescription : looseStrField x.description = true) (hIsbn : looseStrField x.isbn = true)
    (hIsbn13 : looseStrField x.isbn13 = true) (hCover : looseStrField x.cover = true)
    (hCategoryName : looseStrField x.categoryName = true)
    (hStockStatus : looseStrField x.stockStatus = true) (hMallType : looseStrField x.mallType = true)
    (hLink : looseStrField x.link = true) :
    normalizeBookItem (normalizeBookItem x) = normalizeBookItem x ∧
    isNumVal (normalizeBookItem x).itemId ∧ isNumVal (normalizeBookItem x).priceSales ∧
    isNumVal (normalizeBookItem x).priceStandard ∧
    isNumVal (normalizeBookItem x).categoryId ∧ isNumVal (normalizeBookItem x).salesPoint ∧
    isNumVal (normalizeBookItem x).customerReviewRank ∧
    isNumVal (normalizeBookItem x).mileage ∧
    isStrVal (normalizeBookItem x).title ∧ isStrVal (normalizeBookItem x).author ∧
    isStrVal (normalizeBookItem x).publisher ∧ isStrVal (normalizeBookItem x).pubDate ∧
    isStrVal (normalizeBookItem x).description ∧ isStrVal (normalizeBookItem x).isbn ∧
    isStrVal (normalizeBookItem x).isbn13 ∧ isStrVal (normalizeBookItem x).cover ∧
    isStrVal (normalizeBookItem x).categoryName ∧
    isStrVal (normalizeBookItem x).stockStatus ∧ isStrVal (normalizeBookItem x).mallType ∧
    isStrVal (normalizeBookItem x).link ∧
    isBoolVal (normalizeBookItem x).adult ∧ isBoolVal (normalizeBookItem x).fixedPrice ∧
    (normalizeBookItem x).subInfo = x.subInfo := by
  refine ⟨?_, (coerceNumInt_good _ hItemId).2, (coerceNumInt_good _ hPriceSales).2,
    (coerceNumInt_good _ hPriceStandard).2, (coerceNumInt_good _ hCategoryId).2,
    (coerceNumInt_good _ hSalesPoint).2, (coerceNumFloat_good _ hReview).2,
    (coerceNumInt_good _ hMileage).2,
    (coerceStr_good _).2 hTitle, (coerceStr_good _).2 hAuthor,
    (coerceStr_good _).2 hPublisher, (coerceStr_good _).2 hPubDate,
    (coerceStr_good _).2 hDescription, (coerceStr_good _).2 hIsbn,
    (coerceStr_good _).2 hIsbn13, (coerceStr_good _).2 hCover,
    (coerceStr_good _).2 hCategoryName, (coerceStr_good _).2 hStockStatus,
    (coerceStr_good _).2 hMallType, (coerceStr_good _).2 hLink,
    (coerceBool_good _).2, (coerceBool_good _).2, rfl⟩
  show BookItem.mk _ _ _ _ _ _ _ _ _ _ _ _ _ _ _ _ _ _ _ _ _ _ =
    BookItem.mk _ _ _ _ _ _ _ _ _ _ _ _ _ _ _ _ _ _ _ _ _ _
  simp only [normalizeBookItem]
  congr 1
  · exact (coerceNumInt_good _ hItemId).1
  · exact (coerceStr_good _).1
  · exact (coerceStr_good _).1
  · exact (coerceStr_good _).1
  · exact (coerceStr_good _).1
  · exact (coerceStr_good _).1
  · exact (coerceStr_good _).1
  · exact (coerceStr_good _).1
  · exact (coerceNumInt_good _ hPriceSales).1
  · exact (coerceNumInt_good _ hPriceStandard).1
  · exact (coerceStr_good _).1
  · exact (coerceNumInt_good _ hCategoryId).1
  · exact (coerceStr_good _).1
  · exact (coerceNumInt_good _ hSalesPoint).1
  · exact (coerceNumFloat_good _ hReview).1
  · exact (coerceNumInt_good _ hMileage).1
  · exact (coerceStr_good _).1
  · exact (coerceStr_good _).1
  · exact (coerceStr_good _).1

/-- C10 witness: a typical loosely-typed upstream item (numeric strings,
absent fields, a `subInfo`) is normalized idempotently. -/
theorem normalizeBookItem_idempotent_amended_witness :
    normalizeBookItem (normalizeBookItem
      { itemId := .str "269508618", title := .str "클린 코드", author := .str "로버트 마틴",
        publisher := .undef, pubDate := .str "2013-12-24", description := .undef,
        isbn := .str "8966260950", isbn13 := .str "9788966260959",
        priceSales := .str "29700", priceStandard := .num (.val 33000), cover := .undef,
        categoryId := .str "351", categoryName := .str "컴퓨터/모바일",
        salesPoint := .num (.val 140455), customerReviewRank := .str "9.5",
        adult := .undef, fixedPrice := .boolean true, mileage := .str "1650",
        stockStatus := .undef, mallType := .str "BOOK", link := .str "https://www.aladin.co.kr",
        subInfo := some [("toc", .str "목차")] }) =
    normalizeBookItem
      { itemId := .str "269508618", title := .str "클린 코드", author := .str "로버트 마틴",
        publisher := .undef, pubDate := .str "2013-12-24", description := .undef,
        isbn := .str "8966260950", isbn13 := .str "9788966260959",
        priceSales := .str "29700", priceStandard := .num (.val 33000), cover := .undef,
        categoryId := .str "351", categoryName := .str "컴퓨터/모바일",
        salesPoint := .num (.val 140455), customerReviewRank := .str "9.5",
        adult := .undef, fixedPrice := .boolean true, mileage := .str "1650",
        stockStatus := .undef, mallType := .str "BOOK", link := .str "https://www.aladin.co.kr",
        subInfo := some [("toc", .str "목차")] } :=
  (normalizeBookItem_idempotent_amended _ (by decide) (by decide) (by decide) (by decide)
    (by decide) (by decide) (by decide) (by decide) (by decide) (by decide) (by decide)
    (by decide) (by decide) (by decide) (by decide) (by decide) (by decide) (by decide)
    (by decide)).1


open AladinApiClient in
/-- A live cache hit short-circuits `searchBooks`: the cached value is
returned and only the (possibly eviction-trimmed) cache may change. -/
theorem searchBooks_cache_hit (p : SearchParams) (now : JsDate)
    (http : ℕ → Except AxiosErr SearchResponse) (s : ClientState)
    (r : SearchResponse) (c' : List (String × CacheEntry))
    (hv : (validateSearchParams p).isValid = true)
    (hc : getFromCache now.time (createCacheKey "search" p.fields) s.cache =
      (some (.search r), c')) :
    searchBooks p now http s = (.ok r, { s with cache := c' }) := by
  simp only [searchBooks, hv, hc]
  simp

open AladinApiClient in
/-- A live cache hit short-circuits `getBookDetails` the same way. -/
theorem getBookDetails_cache_hit (q : BookDetailsParams) (now : JsDate)
    (http : ℕ → Except AxiosErr LookupResponse) (s : ClientState)
    (b : BookItem) (c' : List (String × CacheEntry))
    (hv : (validateLookupParams q).isValid = true)
    (hc : getFromCache now.time (createCacheKey "lookup" q.fields) s.cache =
      (some (.book (some b)), c')) :
    getBookDetails q now http s = (.ok (some b), { s with cache := c' }) := by
  simp only [getBookDetails, hv, hc]
  simp

open AladinApiClient in
/-- A live cache hit short-circuits the common `ItemList.aspx` body. -/
theorem itemListCall_cache_hit (tag : String) (l : ItemListParams) (now : JsDate)
    (http : ℕ → Except AxiosErr LookupResponse) (s : ClientState)
    (r : LookupResponse) (c' : List (String × CacheEntry))
    (hv : (validateListParams l).isValid = true)
    (hc : getFromCache now.time (createCacheKey tag l.fields) s.cache =
      (some (.list r), c')) :
    itemListCall tag l now http s = (.ok r, { s with cache := c' }) := by
  simp only [itemListCall, hv, hc]
  simp

open AladinApiClient AladinRateLimiter in
/-- A fresh client's first search call runs the whole pipeline: one HTTP
request, normalization, a cache store under the search key with
`SEARCH_TTL`, and a successful usage record. -/
theorem searchBooks_first_call (ttbKey : String) (p : SearchParams) (now1 : JsDate)
    (http : ℕ → Except AxiosErr SearchResponse) (r : SearchResponse)
    (hv : (validateSearchParams p).isValid = true)
    (hkey : ttbKeyPatternTest ttbKey = true)
    (h24 : now1.time > RATE_LIMIT_CONFIG.TTB_VALIDATION_INTERVAL)
    (hh : http 0 = .ok r) :
    searchBooks p now1 http (initialClientState ttbKey now1) =
      (.ok (normalizeSearchResponse r),
       ⟨[(createCacheKey "search" p.fields,
          ⟨.search (normalizeSearchResponse r), now1.time, CACHE_CONFIG.SEARCH_TTL⟩)],
        recordApiCall now1 true
          { freshTtbKeyUsage ttbKey now1 with isValid := true, lastValidation := now1.time },
        { freshRateLimitState now1.time with burstCount := 1 },
        ⟨0, none⟩, 1⟩) := by
  have h24' : (86400000 : ℤ) < now1.time := h24
  simp [searchBooks, initialClientState, freshTtbKeyUsage, freshRateLimitState,
    freshBreakerState, getFromCache, mapGet, checkRateLimit, checkDailyLimit,
    validateTtbKeyUsage, checkRequestFrequency, checkBurstLimit,
    RATE_LIMIT_CONFIG.TTB_VALIDATION_INTERVAL, RATE_LIMIT_CONFIG.BURST_WINDOW,
    RATE_LIMIT_CONFIG.BURST_LIMIT, RATE_LIMIT_CONFIG.DEFAULT_REQUEST_INTERVAL,
    checkCircuitBreaker, CIRCUIT_BREAKER_THRESHOLD, retryRequest, interceptedGet,
    interceptorSuccessReset, handleCircuitBreaker, setCache, mapSet, mapDelete,
    CACHE_CONFIG.SEARCH_TTL, CACHE_CONFIG.MAX_CACHE_SIZE, HTTP_CONFIG.MAX_RETRIES,
    DAILY_API_LIMIT, hv, hkey, h24', hh]

/-- C6: on a live cache hit every endpoint method returns the cached value
with the quota check, circuit breaker and HTTP transport untouched and no
usage recorded (the state is unchanged but for the read-through cache);
consequently two identical search calls within the search TTL on a fresh
client perform exactly one HTTP invocation and both return the same
normalized data. -/
theorem cache_hit_bypasses_pipeline :
    (∀ (p : SearchParams) (now : JsDate) (http : ℕ → Except AxiosErr SearchResponse)
        (s : ClientState) (r : SearchResponse) (c' : List (String × CacheEntry)),
      (AladinApiClient.validateSearchParams p).isValid = true →
      getFromCache now.time (createCacheKey "search" p.fields) s.cache =
        (some (.search r), c') →
      AladinApiClient.searchBooks p now http s = (.ok r, { s with cache := c' })) ∧
    (∀ (q : BookDetailsParams) (now : JsDate) (http : ℕ → Except AxiosErr LookupResponse)
        (s : ClientState) (b : BookItem) (c' : List (String × CacheEntry)),
      (AladinApiClient.validateLookupParams q).isValid = true →
      getFromCache now.time (createCacheKey "lookup" q.fields) s.cache =
        (some (.book (some b)), c') →
      AladinApiClient.getBookDetails q now http s = (.ok (some b), { s with cache := c' })) ∧
    (∀ (l : ItemListParams) (now : JsDate) (http : ℕ → Except AxiosErr LookupResponse)
        (s : ClientState) (r : LookupResponse) (c' : List (String × CacheEntry)),
      (AladinApiClient.validateListParams
        { l with QueryType := some "Bestseller" }).isValid = true →
      getFromCache now.time
          (createCacheKey "bestseller"
            (ItemListParams.fields { l with QueryType := some "Bestseller" })) s.cache =
        (some (.list r), c') →
      AladinApiClient.getBestsellerList l now http s = (.ok r, { s with cache := c' })) ∧
    (∀ (l : ItemListParams) (now : JsDate) (http : ℕ → Except AxiosErr LookupResponse)
        (s : ClientState) (r : LookupResponse) (c' : List (String × CacheEntry)),
      (AladinApiClient.validateListParams l).isValid = true →
      getFromCache now.time (createCacheKey "newreleases" l.fields) s.cache =
        (some (.list r), c') →
      AladinApiClient.getNewReleasesList l now http s = (.ok r, { s with cache := c' })) ∧
    (∀ (l : ItemListParams) (now : JsDate) (http : ℕ → Except AxiosErr LookupResponse)
        (s : ClientState) (r : LookupResponse) (c' : List (String × CacheEntry)),
      (AladinApiClient.validateListParams l).isValid = true →
      getFromCache now.time (createCacheKey "itemlist" l.fields) s.cache =
        (some (.list r), c') →
      AladinApiClient.getItemList l now http s = (.ok r, { s with cache := c' })) ∧
    (∀ (ttbKey : String) (p : SearchParams) (now1 now2 : JsDate)
        (http : ℕ → Except AxiosErr SearchResponse) (r : SearchResponse),
      (AladinApiClient.validateSearchParams p).isValid = true →
      ttbKeyPatternTest ttbKey = true →
      now1.time > RATE_LIMIT_CONFIG.TTB_VALIDATION_INTERVAL →
      http 0 = .ok r →
      now2.time - now1.time ≤ CACHE_CONFIG.SEARCH_TTL →
      (AladinApiClient.searchBooks p now1 http (initialClientState ttbKey now1)).1 =
        .ok (normalizeSearchResponse r) ∧
      (AladinApiClient.searchBooks p now1 http (initialClientState ttbKey now1)).2.httpCalls
        = 1 ∧
      AladinApiClient.searchBooks p now2 http
          (AladinApiClient.searchBooks p now1 http (initialClientState ttbKey now1)).2 =
        (.ok (normalizeSearchResponse r),
         (AladinApiClient.searchBooks p now1 http (initialClientState ttbKey now1)).2)) := by
  refine ⟨searchBooks_cache_hit, getBookDetails_cache_hit, ?_, ?_, ?_, ?_⟩
  · intro l now http s r c' hv hc
    exact itemListCall_cache_hit "bestseller" _ now http s r c' hv hc
  · intro l now http s r c' hv hc
    exact itemListCall_cache_hit "newreleases" _ now http s r c' hv hc
  · intro l now http s r c' hv hc
    exact itemListCall_cache_hit "itemlist" _ now http s r c' hv hc
  · intro ttbKey p now1 now2 http r hv hkey h24 hh hdt
    rw [searchBooks_first_call ttbKey p now1 http r hv hkey h24 hh]
    refine ⟨rfl, rfl, ?_⟩
    have hdt' : ¬((300000 : ℤ) < now2.time - now1.time) := by
      simp only [CACHE_CONFIG.SEARCH_TTL] at hdt
      exact not_lt.mpr (by linarith)
    have hc : getFromCache now2.time (createCacheKey "search" p.fields)
        [(createCacheKey "search" p.fields,
          ⟨.search (normalizeSearchResponse r), now1.time, CACHE_CONFIG.SEARCH_TTL⟩)] =
        (some (.search (normalizeSearchResponse r)),
         [(createCacheKey "search" p.fields,
           ⟨.search (normalizeSearchResponse r), now1.time, CACHE_CONFIG.SEARCH_TTL⟩)]) := by
      simp [getFromCache, mapGet, CACHE_CONFIG.SEARCH_TTL, hdt']
    exact searchBooks_cache_hit p now2 http _ _ _ hv hc

/-- C6 witness: a fresh client searching "클린 코드" twice, 499 ms apart, with
an upstream that answers the first request — one HTTP call, identical data. -/
theorem cache_hit_bypasses_pipeline_witness :
    ((AladinApiClient.validateSearchParams
        ⟨some "클린 코드", none, none, none, none, none, none, none, none⟩).isValid = true) ∧
    (ttbKeyPatternTest "ttbalbert.rim1712001" = true) ∧
    ((AladinApiClient.searchBooks
        ⟨some "클린 코드", none, none, none, none, none, none, none, none⟩ ⟨86400001, 15⟩
        (fun _ => .ok ⟨"1.0", "검색", "l", "p", 1, 1, 10, "클린 코드", none⟩)
        (initialClientState "ttbalbert.rim1712001" ⟨86400001, 15⟩)).1 =
      .ok (normalizeSearchResponse ⟨"1.0", "검색", "l", "p", 1, 1, 10, "클린 코드", none⟩)) ∧
    ((AladinApiClient.searchBooks
        ⟨some "클린 코드", none, none, none, none, none, none, none, none⟩ ⟨86400001, 15⟩
        (fun _ => .ok ⟨"1.0", "검색", "l", "p", 1, 1, 10, "클린 코드", none⟩)
        (initialClientState "ttbalbert.rim1712001" ⟨86400001, 15⟩)).2.httpCalls = 1) ∧
    (AladinApiClient.searchBooks
        ⟨some "클린 코드", none, none, none, none, none, none, none, none⟩ ⟨86400500, 15⟩
        (fun _ => .ok ⟨"1.0", "검색", "l", "p", 1, 1, 10, "클린 코드", none⟩)
        (AladinApiClient.searchBooks
          ⟨some "클린 코드", none, none, none, none, none, none, none, none⟩ ⟨86400001, 15⟩
          (fun _ => .ok ⟨"1.0", "검색", "l", "p", 1, 1, 10, "클린 코드", none⟩)
          (initialClientState "ttbalbert.rim1712001" ⟨86400001, 15⟩)).2 =
      (.ok (normalizeSearchResponse ⟨"1.0", "검색", "l", "p", 1, 1, 10, "클린 코드", none⟩),
       (AladinApiClient.searchBooks
          ⟨some "클린 코드", none, none, none, none, none, none, none, none⟩ ⟨86400001, 15⟩
          (fun _ => .ok ⟨"1.0", "검색", "l", "p", 1, 1, 10, "클린 코드", none⟩)
          (initialClientState "ttbalbert.rim1712001" ⟨86400001, 15⟩)).2)) := by
  have h := cache_hit_bypasses_pipeline.2.2.2.2.2 "ttbalbert.rim1712001"
    ⟨some "클린 코드", none, none, none, none, none, none, none, none⟩
    ⟨86400001, 15⟩ ⟨86400500, 15⟩
    (fun _ => .ok ⟨"1.0", "검색", "l", "p", 1, 1, 10, "클린 코드", none⟩)
    ⟨"1.0", "검색", "l", "p", 1, 1, 10, "클린 코드", none⟩
    (by decide) (by decide) (by decide) rfl (by decide)
  exact ⟨by decide, by decide, h.1, h.2.1, h.2.2⟩


/-- C3 amended: a `searchBooks` / `getBookDetails` call with invalid
parameters issues no HTTP request and leaves the cache and the circuit
breaker untouched, but (i) the propagated error is not the InvalidParameter
(300) validation error itself — the catch block re-classifies the thrown
`StandardError` through `handleApiError` / `handleGenericError` into a
SYSTEM_ERROR (900) carrying the validation text under the `API_CALL` context
— and (ii) the catch block records a failed call, so `dailyCount` grows by 1
(and `requestHistory` gains the call instant). -/
theorem validation_failure_amended :
    (∀ (p : SearchParams) (now : JsDate) (http : ℕ → Except AxiosErr SearchResponse)
        (s : ClientState),
      (AladinApiClient.validateSearchParams p).isValid = false →
      AladinApiClient.searchBooks p now http s =
        (.error (AladinApiClient.handleApiError (.std
          (AladinErrorHandler.handleValidationError
            (AladinApiClient.validateSearchParams p).errors))),
         { s with usage := AladinRateLimiter.recordApiCall now false s.usage }) ∧
      (AladinApiClient.handleApiError (.std
        (AladinErrorHandler.handleValidationError
          (AladinApiClient.validateSearchParams p).errors))).code = 900 ∧
      (AladinApiClient.searchBooks p now http s).2.cache = s.cache ∧
      (AladinApiClient.searchBooks p now http s).2.breaker = s.breaker ∧
      (AladinApiClient.searchBooks p now http s).2.httpCalls = s.httpCalls ∧
      (AladinApiClient.searchBooks p now http s).2.usage.dailyCount =
        s.usage.dailyCount + 1 ∧
      (AladinApiClient.searchBooks p now http s).2.usage.requestHistory =
        (s.usage.requestHistory ++ [now.time]).filter fun t => now.time - t ≤ 60000) ∧
    (∀ (q : BookDetailsParams) (now : JsDate) (http : ℕ → Except AxiosErr LookupResponse)
        (s : ClientState),
      (AladinApiClient.validateLookupParams q).isValid = false →
      AladinApiClient.getBookDetails q now http s =
        (.error (AladinApiClient.handleApiError (.std
          (AladinErrorHandler.handleValidationError
            (AladinApiClient.validateLookupParams q).errors))),
         { s with usage := AladinRateLimiter.recordApiCall now false s.usage }) ∧
      (AladinApiClient.handleApiError (.std
        (AladinErrorHandler.handleValidationError
          (AladinApiClient.validateLookupParams q).errors))).code = 900 ∧
      (AladinApiClient.getBookDetails q now http s).2.cache = s.cache ∧
      (AladinApiClient.getBookDetails q now http s).2.breaker = s.breaker ∧
      (AladinApiClient.getBookDetails q now http s).2.httpCalls = s.httpCalls ∧
      (AladinApiClient.getBookDetails q now http s).2.usage.dailyCount =
        s.usage.dailyCount + 1 ∧
      (AladinApiClient.getBookDetails q now http s).2.usage.requestHistory =
        (s.usage.requestHistory ++ [now.time]).filter fun t => now.time - t ≤ 60000) := by
  constructor
  · intro p now http s hv
    have heq : AladinApiClient.searchBooks p now http s =
        (.error (AladinApiClient.handleApiError (.std
          (AladinErrorHandler.handleValidationError
            (AladinApiClient.validateSearchParams p).errors))),
         { s with usage := AladinRateLimiter.recordApiCall now false s.usage }) := by
      simp only [AladinApiClient.searchBooks, hv]
      simp
    rw [heq]
    exact ⟨rfl, rfl, rfl, rfl, rfl, rfl, rfl⟩
  · intro q now http s hv
    have heq : AladinApiClient.getBookDetails q now http s =
        (.error (AladinApiClient.handleApiError (.std
          (AladinErrorHandler.handleValidationError
            (AladinApiClient.validateLookupParams q).errors))),
         { s with usage := AladinRateLimiter.recordApiCall now false s.usage }) := by
      simp only [AladinApiClient.getBookDetails, hv]
      simp
    rw [heq]
    exact ⟨rfl, rfl, rfl, rfl, rfl, rfl, rfl⟩

/-- C3 counterexample: a lookup with no identifier supplied, on a fresh
client, fails with the SYSTEM_ERROR-coded (900) re-wrapped error — not an
InvalidParameter (300) one — and the failed call is recorded against the
daily quota (`dailyCount` becomes 1, not 0). -/
theorem validation_failure_counterexample :
    (AladinApiClient.getBookDetails ⟨none, none, none, none, none⟩ ⟨86400001, 15⟩
        (fun _ => .ok ⟨"1.0", "t", "l", "p", none⟩)
        (initialClientState "ttbalbert.rim1712001" ⟨86400001, 15⟩)).1 =
      .error ⟨900, "API_CALL: ItemId, ISBN, 또는 ISBN13 중 하나는 필수입니다"⟩ ∧
    (900 : ℕ) ≠ 300 ∧
    (AladinApiClient.getBookDetails ⟨none, none, none, none, none⟩ ⟨86400001, 15⟩
        (fun _ => .ok ⟨"1.0", "t", "l", "p", none⟩)
        (initialClientState "ttbalbert.rim1712001" ⟨86400001, 15⟩)).2.usage.dailyCount = 1 ∧
    (1 : ℕ) ≠ 0 := by
  exact ⟨rfl, by decide, by decide, by decide⟩

/-- C3 witness: the amended theorem applied to a search call with an empty
query on a fresh client. -/
theorem validation_failure_amended_witness :
    ((AladinApiClient.validateSearchParams
        ⟨some "", none, none, none, none, none, none, none, none⟩).isValid = false) ∧
    (AladinApiClient.searchBooks
        ⟨some "", none, none, none, none, none, none, none, none⟩ ⟨86400001, 15⟩
        (fun _ => .ok ⟨"1.0", "t", "l", "p", 0, 1, 10, "", none⟩)
        (initialClientState "ttbalbert.rim1712001" ⟨86400001, 15⟩)).2.httpCalls =
      (initialClientState "ttbalbert.rim1712001" ⟨86400001, 15⟩).httpCalls ∧
    (AladinApiClient.searchBooks
        ⟨some "", none, none, none, none, none, none, none, none⟩ ⟨86400001, 15⟩
        (fun _ => .ok ⟨"1.0", "t", "l", "p", 0, 1, 10, "", none⟩)
        (initialClientState "ttbalbert.rim1712001" ⟨86400001, 15⟩)).2.usage.dailyCount =
      (initialClientState "ttbalbert.rim1712001" ⟨86400001, 15⟩).usage.dailyCount + 1 := by
  have h := validation_failure_amended.1
    ⟨some "", none, none, none, none, none, none, none, none⟩ ⟨86400001, 15⟩
    (fun _ => .ok ⟨"1.0", "t", "l", "p", 0, 1, 10, "", none⟩)
    (initialClientState "ttbalbert.rim1712001" ⟨86400001, 15⟩) (by decide)
  exact ⟨by decide, h.2.2.2.2.1, h.2.2.2.2.2.1⟩

end AladinMcp
